import Mathlib

/-!
nao_igm: support-foot-relative kinematic state of the NAO model.

A shallow embedding of `src/nao_model/igm.cpp`.

* The scalar type `α` of the model is a parameter.  For the arithmetic of the
  rotation builders a `double` is an element of a linearly ordered commutative
  ring (`ℝ` for the trigonometric claims, `ℤ` when a definition is evaluated
  on a concrete input); rounding is outside the embedding.
* The bounds scan only compares.  It is defined over any type with a
  decidable `<`, and `ieee α` adds NaN to the ordered values of `α`, with the
  comparisons of IEEE-754: every comparison with NaN is false.
* A C array is a function `Nat → α`; the assignment `a[i] = v` is
  `Function.update a i v`.  An output parameter is passed in and returned.
* `sin` and `cos` of `<math.h>` are parameters of the two `rpy2R` builders.
* The chain solvers and Euler builders declared in `maple_functions.h` are the
  fields of `maple_functions`.
* The product of two `Eigen::Map<Eigen::MatrixXd>` is `eigenProduct`, over
  column-major storage.
-/

namespace NaoIgm

/-! ## Constants and types of `nao_igm.h` -/

/-- Modelled from the spec: the header `nao_igm.h` is missing. The number of
body joints `N_J`; the constructor installs bounds for 24 named joints and
`initJointAngles` documents that it sets exactly `q[0]...q[23]`. -/
def JOINTS_NUM : Nat := 24

/-- Modelled from the spec: the header `nao_igm.h` is missing. The support-foot
position region follows the body joints ("three contiguous regions"), which is
where `SetBasePose` writes `x, y, z`. -/
def SUPPORT_FOOT_POS_START : Nat := 24

/-- Modelled from the spec: the header `nao_igm.h` is missing. "Support-foot
position (3 entries)". -/
def SUPPORT_FOOT_POS_NUM : Nat := 3

/-- Modelled from the spec: the header `nao_igm.h` is missing. The orientation
region follows the position region. -/
def SUPPORT_FOOT_ORIENTATION_START : Nat := 27

/-- Modelled from the spec: the header `nao_igm.h` is missing. "Support-foot
orientation (9 entries)". -/
def SUPPORT_FOOT_ORIENTATION_NUM : Nat := 9

/-- Modelled from the spec: the header `nao_igm.h` is missing. A homogeneous
pose is a 4x4 matrix. -/
def POSTURE_MATRIX_SIZE : Nat := 16

/-- Modelled from the spec: the header `nao_igm.h` is missing. An orientation
is a 3x3 matrix. -/
def ORIENTATION_MATRIX_SIZE : Nat := 9

/-- Modelled from the spec: the header `nao_igm.h` is missing.
"SupportFootIdentity: an enumeration of exactly two values, LEFT or RIGHT". -/
inductive igmSupportFoot where
  | IGM_SUPPORT_LEFT
  | IGM_SUPPORT_RIGHT
  deriving DecidableEq, Repr

open igmSupportFoot

/-- The data members of class `nao_igm` used by `igm.cpp`. -/
structure nao_igm (α : Type) where
  q : Nat → α
  q_lower_bound : Nat → α
  q_upper_bound : Nat → α
  support_foot : igmSupportFoot
  swing_foot_posture : Nat → α
  torso_orientation : Nat → α
  CoM_position : Nat → α
  state_var_num : Nat

/-- Modelled from the spec: `maple_functions.h` and its implementation are
missing. "The external solvers are assumed pure, total, deterministic functions
of the joint-angle vector"; each one fills its whole output array from its
inputs. `Euler2Rot` and `Euler2T` are the Euler builders called by
`SetBasePose`, `RotationOffset` and `PostureOffset`. -/
structure maple_functions (α : Type) where
  LLeg2RLeg : (Nat → α) → (Nat → α)
  RLeg2LLeg : (Nat → α) → (Nat → α)
  LLeg2Torso : (Nat → α) → (Nat → α)
  RLeg2Torso : (Nat → α) → (Nat → α)
  LLeg2CoM : (Nat → α) → (Nat → α)
  RLeg2CoM : (Nat → α) → (Nat → α)
  Euler2Rot : α → α → α → (Nat → α)
  Euler2T : α → α → α → α → α → α → (Nat → α)

/-! ## Doubles with NaN -/

/-- An IEEE-754 `double` as far as the comparisons of `igm.cpp` are concerned:
an ordered value of `α` (finite or infinite), or NaN. -/
inductive ieee (α : Type) where
  | val : α → ieee α
  | nan : ieee α
  deriving DecidableEq

/-- The comparison `a < b` of two doubles: false as soon as an operand is
NaN. -/
def ieee.lt {α : Type} [LT α] : ieee α → ieee α → Prop
  | ieee.val x, ieee.val y => x < y
  | _, _ => False

/-- The comparison `a <= b` of two doubles: false as soon as an operand is
NaN. -/
def ieee.le {α : Type} [LE α] : ieee α → ieee α → Prop
  | ieee.val x, ieee.val y => x ≤ y
  | _, _ => False

instance ieee.instLT {α : Type} [LT α] : LT (ieee α) := ⟨ieee.lt⟩

instance ieee.instLE {α : Type} [LE α] : LE (ieee α) := ⟨ieee.le⟩

instance ieee.decLt {α : Type} [LT α] [DecidableRel (fun a b : α => a < b)] :
    DecidableRel (fun a b : ieee α => a < b)
  | ieee.val x, ieee.val y => inferInstanceAs (Decidable (x < y))
  | ieee.val _, ieee.nan => isFalse (fun h => h)
  | ieee.nan, ieee.val _ => isFalse (fun h => h)
  | ieee.nan, ieee.nan => isFalse (fun h => h)

instance ieee.decLe {α : Type} [LE α] [DecidableRel (fun a b : α => a ≤ b)] :
    DecidableRel (fun a b : ieee α => a ≤ b)
  | ieee.val x, ieee.val y => inferInstanceAs (Decidable (x ≤ y))
  | ieee.val _, ieee.nan => isFalse (fun h => h)
  | ieee.nan, ieee.val _ => isFalse (fun h => h)
  | ieee.nan, ieee.nan => isFalse (fun h => h)

/-! ## The bounds scan -/

section Scan

variable {α : Type} [LT α] [DecidableRel (fun a b : α => a < b)]

/-- The body of the `for` loop of `nao_igm::checkJointBounds`, started at
index `i` with `n` iterations left (`n = JOINTS_NUM - i`). The two tests are
the strict comparisons of the scalar type, whatever it is. -/
def checkJointBoundsFrom (s : nao_igm α) : Nat → Nat → Int
  | 0, _ => -1
  | n + 1, i =>
    if (s.q_lower_bound i > s.q i) ∨ (s.q_upper_bound i < s.q i) then
      (i : Int)
    else
      checkJointBoundsFrom s n (i + 1)

/-- `nao_igm::checkJointBounds`. -/
def checkJointBounds (s : nao_igm α) : Int :=
  checkJointBoundsFrom s JOINTS_NUM 0

omit [DecidableRel (fun a b : α => a < b)] in
/-- Joint `j` of state `s` is strictly outside its interval: the condition
tested by `checkJointBounds`. -/
def violates (s : nao_igm α) (j : Nat) : Prop :=
  s.q_lower_bound j > s.q j ∨ s.q_upper_bound j < s.q j

/-- The member function `checkJointBounds` as a call on the object `s`: the
object after the call and the returned value. The body assigns no member. -/
def checkJointBoundsCall (s : nao_igm α) : nao_igm α × Int :=
  (s, checkJointBounds s)

end Scan

section Model

variable {α : Type} [LinearOrderedCommRing α]

/-! ## Joint bounds -/

/-- `nao_igm::setBounds`. -/
def setBounds (s : nao_igm α) (id : Nat) (lower_bound upper_bound : α) : nao_igm α :=
  { s with
    q_lower_bound := Function.update s.q_lower_bound id lower_bound
    q_upper_bound := Function.update s.q_upper_bound id upper_bound }

/-- Joint `j` of state `s` lies in its closed interval. -/
def inBounds (s : nao_igm α) (j : Nat) : Prop :=
  s.q_lower_bound j ≤ s.q j ∧ s.q j ≤ s.q_upper_bound j

/-! ## Rotation helpers -/

/-- `nao_igm::T2Rot`: the rotation block of a 4x4 homogeneous matrix, written
into the output array `Rot`. -/
def T2Rot (T : Nat → α) (Rot : Nat → α) : Nat → α :=
  let Rot := Function.update Rot 0 (T 0)
  let Rot := Function.update Rot 3 (T 4)
  let Rot := Function.update Rot 6 (T 8)
  let Rot := Function.update Rot 1 (T 1)
  let Rot := Function.update Rot 4 (T 5)
  let Rot := Function.update Rot 7 (T 9)
  let Rot := Function.update Rot 2 (T 2)
  let Rot := Function.update Rot 5 (T 6)
  let Rot := Function.update Rot 8 (T 10)
  Rot

/-- `nao_igm::rpy2R`, with `sin` and `cos` of `<math.h>` as parameters; `R` is
the output array (column-wise storage). -/
def rpy2R (sin cos : α → α) (roll pitch yaw : α) (R : Nat → α) : Nat → α :=
  let sr := sin roll
  let cr := cos roll
  let sp := sin pitch
  let cp := cos pitch
  let sy := sin yaw
  let cy := cos yaw
  let R := Function.update R 0 (cp * cy)
  let R := Function.update R 3 ((-cp) * sy)
  let R := Function.update R 6 sp
  let R := Function.update R 1 (sr * sp * cy + cr * sy)
  let R := Function.update R 4 ((-sr) * sp * sy + cr * cy)
  let R := Function.update R 7 ((-sr) * cp)
  let R := Function.update R 2 ((-cr) * sp * cy + sr * sy)
  let R := Function.update R 5 (cr * sp * sy + sr * cy)
  let R := Function.update R 8 (cr * cp)
  R

/-- `nao_igm::rpy2R_hom`: the same entries written into the rotation block of
a 4x4 array. -/
def rpy2R_hom (sin cos : α → α) (roll pitch yaw : α) (R : Nat → α) : Nat → α :=
  let sr := sin roll
  let cr := cos roll
  let sp := sin pitch
  let cp := cos pitch
  let sy := sin yaw
  let cy := cos yaw
  let R := Function.update R 0 (cp * cy)
  let R := Function.update R 4 ((-cp) * sy)
  let R := Function.update R 8 sp
  let R := Function.update R 1 (sr * sp * cy + cr * sy)
  let R := Function.update R 5 ((-sr) * sp * sy + cr * cy)
  let R := Function.update R 9 ((-sr) * cp)
  let R := Function.update R 2 ((-cr) * sp * cy + sr * sy)
  let R := Function.update R 6 (cr * sp * sy + sr * cy)
  let R := Function.update R 10 (cr * cp)
  R

/-- A column-major array of 9 entries read as a 3x3 matrix: entry `(r, c)` is
stored at index `3 * c + r`. -/
def colMajor3 (R : Nat → α) : Matrix (Fin 3) (Fin 3) α :=
  Matrix.of fun r c => R (3 * c.val + r.val)

/-- The elementary rotation about the x axis, for given sine and cosine
functions. -/
def Rx (sin cos : α → α) (t : α) : Matrix (Fin 3) (Fin 3) α :=
  !![1, 0, 0; 0, cos t, -sin t; 0, sin t, cos t]

/-- The elementary rotation about the y axis. -/
def Ry (sin cos : α → α) (t : α) : Matrix (Fin 3) (Fin 3) α :=
  !![cos t, 0, sin t; 0, 1, 0; -sin t, 0, cos t]

/-- The elementary rotation about the z axis. -/
def Rz (sin cos : α → α) (t : α) : Matrix (Fin 3) (Fin 3) α :=
  !![cos t, -sin t, 0; sin t, cos t, 0; 0, 0, 1]

/-! ## The support-foot model -/

/-- `nao_igm::SetBasePose`. -/
def SetBasePose (M : maple_functions α) (s : nao_igm α)
    (x y z alpha beta gamma : α) : nao_igm α :=
  let Rot := M.Euler2Rot alpha beta gamma
  let q := s.q
  let q := Function.update q 24 x
  let q := Function.update q 25 y
  let q := Function.update q 26 z
  let q := Function.update q 27 (Rot 0)
  let q := Function.update q 30 (Rot 3)
  let q := Function.update q 33 (Rot 6)
  let q := Function.update q 28 (Rot 1)
  let q := Function.update q 31 (Rot 4)
  let q := Function.update q 34 (Rot 7)
  let q := Function.update q 29 (Rot 2)
  let q := Function.update q 32 (Rot 5)
  let q := Function.update q 35 (Rot 8)
  { s with q := q }

/-- `nao_igm::setCoM`. -/
def setCoM (s : nao_igm α) (x y z : α) : nao_igm α :=
  { s with
    CoM_position :=
      Function.update (Function.update (Function.update s.CoM_position 0 x) 1 y) 2 z }

/-- `nao_igm::getUpdatedCoM`: the new state and the filled output array. -/
def getUpdatedCoM (M : maple_functions α) (s : nao_igm α) (CoM_pos : Nat → α) :
    nao_igm α × (Nat → α) :=
  let s :=
    if s.support_foot = IGM_SUPPORT_LEFT then
      { s with CoM_position := M.LLeg2CoM s.q }
    else
      { s with CoM_position := M.RLeg2CoM s.q }
  let CoM_pos := Function.update CoM_pos 0 (s.CoM_position 0)
  let CoM_pos := Function.update CoM_pos 1 (s.CoM_position 1)
  let CoM_pos := Function.update CoM_pos 2 (s.CoM_position 2)
  (s, CoM_pos)

/-- `nao_igm::getUpdatedSwingFoot`: the new state and the filled output
array. -/
def getUpdatedSwingFoot (M : maple_functions α) (s : nao_igm α) (swing_foot : Nat → α) :
    nao_igm α × (Nat → α) :=
  let s :=
    if s.support_foot = IGM_SUPPORT_LEFT then
      { s with swing_foot_posture := M.LLeg2RLeg s.q }
    else
      { s with swing_foot_posture := M.RLeg2LLeg s.q }
  let swing_foot := Function.update swing_foot 0 (s.swing_foot_posture 12)
  let swing_foot := Function.update swing_foot 1 (s.swing_foot_posture 13)
  let swing_foot := Function.update swing_foot 2 (s.swing_foot_posture 14)
  (s, swing_foot)

/-- The block shared verbatim by `init` and `switchSupportFoot`: the solver
dispatch on `support_foot` into `swing_foot_posture`, the local
`torso_posture` and `CoM_position`, followed by
`T2Rot(torso_posture, torso_orientation)`. -/
def refreshDerivedState (M : maple_functions α) (s : nao_igm α) : nao_igm α :=
  let r : (Nat → α) × (Nat → α) × (Nat → α) :=
    if s.support_foot = IGM_SUPPORT_LEFT then
      (M.LLeg2RLeg s.q, M.LLeg2Torso s.q, M.LLeg2CoM s.q)
    else
      (M.RLeg2LLeg s.q, M.RLeg2Torso s.q, M.RLeg2CoM s.q)
  let swing_foot_posture := r.1
  let torso_posture := r.2.1
  let CoM_position := r.2.2
  { s with
    swing_foot_posture := swing_foot_posture
    CoM_position := CoM_position
    torso_orientation := T2Rot torso_posture s.torso_orientation }

/-- `nao_igm::init`. -/
def init (M : maple_functions α) (s : nao_igm α) (support_foot_ : igmSupportFoot)
    (sup_position sup_orientation : Nat → α) : nao_igm α :=
  let q := (List.range' SUPPORT_FOOT_POS_START SUPPORT_FOOT_POS_NUM).foldl
    (fun q i => Function.update q i (sup_position (i - SUPPORT_FOOT_POS_START))) s.q
  let q := (List.range' SUPPORT_FOOT_ORIENTATION_START SUPPORT_FOOT_ORIENTATION_NUM).foldl
    (fun q i => Function.update q i (sup_orientation (i - SUPPORT_FOOT_ORIENTATION_START))) q
  refreshDerivedState M { s with q := q, support_foot := support_foot_ }

/-- `nao_igm::switchSupportFoot`. The local array `sup_orientation` starts
from the arbitrary content `fun _ => 0`; `T2Rot` overwrites all nine of its
entries. -/
def switchSupportFoot (M : maple_functions α) (s : nao_igm α) : nao_igm α :=
  let support_foot :=
    if s.support_foot = IGM_SUPPORT_LEFT then
      IGM_SUPPORT_RIGHT
    else
      if s.support_foot = IGM_SUPPORT_RIGHT then
        IGM_SUPPORT_LEFT
      else
        s.support_foot
  let q := (List.range' SUPPORT_FOOT_POS_START SUPPORT_FOOT_POS_NUM).foldl
    (fun q i => Function.update q i (s.swing_foot_posture (12 + i - SUPPORT_FOOT_POS_START))) s.q
  let sup_orientation := T2Rot s.swing_foot_posture (fun _ => 0)
  let q := (List.range' SUPPORT_FOOT_ORIENTATION_START SUPPORT_FOOT_ORIENTATION_NUM).foldl
    (fun q i => Function.update q i (sup_orientation (i - SUPPORT_FOOT_ORIENTATION_START))) q
  refreshDerivedState M { s with q := q, support_foot := support_foot }

/-! ## Offsets composed with Eigen -/

/-- The product `Eigen::Map<Eigen::MatrixXd>(A, n, n) * Eigen::Map<Eigen::MatrixXd>(B, n, n)`
read through Eigen's linear index: both maps are column-major, so entry
`(r, c)` of a map over `A` is `A[n * c + r]`, and linear index `i` of the
product is its entry `(i % n, i / n)`. Eigen evaluates a matrix product into
a temporary before assigning it, so `T = TcE * T` stores this product. -/
def eigenProduct (n : Nat) (A B : Nat → α) : Nat → α :=
  fun i => ((List.range n).map (fun k => A (n * k + i % n) * B (n * (i / n) + k))).sum

/-- `nao_igm::PostureOffset`: the arrays `Tc` and `Td` after the call. `Tc` is
only read. -/
def PostureOffset (M : maple_functions α) (Tc Td : Nat → α)
    (x y z alpha beta gamma : α) : (Nat → α) × (Nat → α) :=
  let tmp := M.Euler2T x y z alpha beta gamma
  let T := eigenProduct 4 Tc tmp
  let Td := (List.range' 0 (4 * 4)).foldl (fun Td i => Function.update Td i (T i)) Td
  (Tc, Td)

/-- `nao_igm::RotationOffset`: the arrays `Rc` and `Rd` after the call. `Rc` is
only read. -/
def RotationOffset (M : maple_functions α) (Rc Rd : Nat → α)
    (alpha beta gamma : α) : (Nat → α) × (Nat → α) :=
  let tmp := M.Euler2Rot alpha beta gamma
  let R := eigenProduct 3 Rc tmp
  let Rd := (List.range' 0 (3 * 3)).foldl (fun Rd i => Function.update Rd i (R i)) Rd
  (Rc, Rd)

/-- A column-major array of 16 entries read as a 4x4 matrix: entry `(r, c)` is
stored at index `4 * c + r`. -/
def colMajor4 (T : Nat → α) : Matrix (Fin 4) (Fin 4) α :=
  Matrix.of fun r c => T (4 * c.val + r.val)

/-- Modelled from the spec: `Euler2T` of `maple_functions` is missing.
"EulerToHomogeneous(x,y,z, roll,pitch,yaw): same rotation embedded in a
homogeneous matrix with translation (x,y,z) in the last column", the rotation
being "roll about the x-axis, then pitch about the new y-axis, then yaw about
the new z-axis"; the last row of a homogeneous matrix is `0 0 0 1`. -/
def Euler2T_matrix (sin cos : α → α) (x y z alpha beta gamma : α) :
    Matrix (Fin 4) (Fin 4) α :=
  let R := Rx sin cos alpha * Ry sin cos beta * Rz sin cos gamma
  !![R 0 0, R 0 1, R 0 2, x;
     R 1 0, R 1 1, R 1 2, y;
     R 2 0, R 2 1, R 2 2, z;
     0, 0, 0, 1]

/-- Modelled from the spec: `Euler2T` of `maple_functions` is missing. The
matrix `Euler2T_matrix` in the column-wise storage used throughout `igm.cpp`
(translation at indices 12, 13, 14). -/
def Euler2T_spec (sin cos : α → α) (x y z alpha beta gamma : α) : Nat → α :=
  fun i =>
    if h : i < 4 * 4 then
      Euler2T_matrix sin cos x y z alpha beta gamma
        ⟨i % 4, Nat.mod_lt i (by decide)⟩ ⟨i / 4, Nat.div_lt_of_lt_mul h⟩
    else 0

/-- Modelled from the spec: the collaborators `M` with `Euler2T` replaced by
the builder the spec describes. -/
def withSpecEuler2T (sin cos : α → α) (M : maple_functions α) : maple_functions α :=
  { M with Euler2T := Euler2T_spec sin cos }

end Model

/-! ## Joint identifiers, constructor and default posture -/

/-- Modelled from the spec: the `jointSensorIDs` enumeration of the absent header;
body joint `L_HIP_YAW_PITCH` has numeric index 0 (the order in which `igm.cpp` names the
joints). -/
def L_HIP_YAW_PITCH : Nat := 0

/-- Modelled from the spec: the `jointSensorIDs` enumeration of the absent header;
body joint `L_HIP_ROLL` has numeric index 1 (the order in which `igm.cpp` names the
joints). -/
def L_HIP_ROLL : Nat := 1

/-- Modelled from the spec: the `jointSensorIDs` enumeration of the absent header;
body joint `L_HIP_PITCH` has numeric index 2 (the order in which `igm.cpp` names the
joints). -/
def L_HIP_PITCH : Nat := 2

/-- Modelled from the spec: the `jointSensorIDs` enumeration of the absent header;
body joint `L_KNEE_PITCH` has numeric index 3 (the order in which `igm.cpp` names the
joints). -/
def L_KNEE_PITCH : Nat := 3

/-- Modelled from the spec: the `jointSensorIDs` enumeration of the absent header;
body joint `L_ANKLE_PITCH` has numeric index 4 (the order in which `igm.cpp` names the
joints). -/
def L_ANKLE_PITCH : Nat := 4

/-- Modelled from the spec: the `jointSensorIDs` enumeration of the absent header;
body joint `L_ANKLE_ROLL` has numeric index 5 (the order in which `igm.cpp` names the
joints). -/
def L_ANKLE_ROLL : Nat := 5

/-- Modelled from the spec: the `jointSensorIDs` enumeration of the absent header;
body joint `R_HIP_YAW_PITCH` has numeric index 6 (the order in which `igm.cpp` names the
joints). -/
def R_HIP_YAW_PITCH : Nat := 6

/-- Modelled from the spec: the `jointSensorIDs` enumeration of the absent header;
body joint `R_HIP_ROLL` has numeric index 7 (the order in which `igm.cpp` names the
joints). -/
def R_HIP_ROLL : Nat := 7

/-- Modelled from the spec: the `jointSensorIDs` enumeration of the absent header;
body joint `R_HIP_PITCH` has numeric index 8 (the order in which `igm.cpp` names the
joints). -/
def R_HIP_PITCH : Nat := 8

/-- Modelled from the spec: the `jointSensorIDs` enumeration of the absent header;
body joint `R_KNEE_PITCH` has numeric index 9 (the order in which `igm.cpp` names the
joints). -/
def R_KNEE_PITCH : Nat := 9

/-- Modelled from the spec: the `jointSensorIDs` enumeration of the absent header;
body joint `R_ANKLE_PITCH` has numeric index 10 (the order in which `igm.cpp` names the
joints). -/
def R_ANKLE_PITCH : Nat := 10

/-- Modelled from the spec: the `jointSensorIDs` enumeration of the absent header;
body joint `R_ANKLE_ROLL` has numeric index 11 (the order in which `igm.cpp` names the
joints). -/
def R_ANKLE_ROLL : Nat := 11

/-- Modelled from the spec: the `jointSensorIDs` enumeration of the absent header;
body joint `L_SHOULDER_PITCH` has numeric index 12 (the order in which `igm.cpp` names the
joints). -/
def L_SHOULDER_PITCH : Nat := 12

/-- Modelled from the spec: the `jointSensorIDs` enumeration of the absent header;
body joint `L_SHOULDER_ROLL` has numeric index 13 (the order in which `igm.cpp` names the
joints). -/
def L_SHOULDER_ROLL : Nat := 13

/-- Modelled from the spec: the `jointSensorIDs` enumeration of the absent header;
body joint `L_ELBOW_YAW` has numeric index 14 (the order in which `igm.cpp` names the
joints). -/
def L_ELBOW_YAW : Nat := 14

/-- Modelled from the spec: the `jointSensorIDs` enumeration of the absent header;
body joint `L_ELBOW_ROLL` has numeric index 15 (the order in which `igm.cpp` names the
joints). -/
def L_ELBOW_ROLL : Nat := 15

/-- Modelled from the spec: the `jointSensorIDs` enumeration of the absent header;
body joint `L_WRIST_YAW` has numeric index 16 (the order in which `igm.cpp` names the
joints). -/
def L_WRIST_YAW : Nat := 16

/-- Modelled from the spec: the `jointSensorIDs` enumeration of the absent header;
body joint `R_SHOULDER_PITCH` has numeric index 17 (the order in which `igm.cpp` names the
joints). -/
def R_SHOULDER_PITCH : Nat := 17

/-- Modelled from the spec: the `jointSensorIDs` enumeration of the absent header;
body joint `R_SHOULDER_ROLL` has numeric index 18 (the order in which `igm.cpp` names the
joints). -/
def R_SHOULDER_ROLL : Nat := 18

/-- Modelled from the spec: the `jointSensorIDs` enumeration of the absent header;
body joint `R_ELBOW_YAW` has numeric index 19 (the order in which `igm.cpp` names the
joints). -/
def R_ELBOW_YAW : Nat := 19

/-- Modelled from the spec: the `jointSensorIDs` enumeration of the absent header;
body joint `R_ELBOW_ROLL` has numeric index 20 (the order in which `igm.cpp` names the
joints). -/
def R_ELBOW_ROLL : Nat := 20

/-- Modelled from the spec: the `jointSensorIDs` enumeration of the absent header;
body joint `R_WRIST_YAW` has numeric index 21 (the order in which `igm.cpp` names the
joints). -/
def R_WRIST_YAW : Nat := 21

/-- Modelled from the spec: the `jointSensorIDs` enumeration of the absent header;
body joint `HEAD_PITCH` has numeric index 22 (the order in which `igm.cpp` names the
joints). -/
def HEAD_PITCH : Nat := 22

/-- Modelled from the spec: the `jointSensorIDs` enumeration of the absent header;
body joint `HEAD_YAW` has numeric index 23 (the order in which `igm.cpp` names the
joints). -/
def HEAD_YAW : Nat := 23

section Construction

variable {α : Type} [LinearOrderedField α]

/-- `nao_igm::initJointAngles`: only `q[0]...q[23]` are set. -/
def initJointAngles (s : nao_igm α) : nao_igm α :=
  let q := s.q
  let q := Function.update q L_HIP_YAW_PITCH 0.0
  let q := Function.update q L_HIP_ROLL 0.0
  let q := Function.update q L_HIP_PITCH (-0.436332)
  let q := Function.update q L_KNEE_PITCH 0.698132
  let q := Function.update q L_ANKLE_PITCH (-0.349066)
  let q := Function.update q L_ANKLE_ROLL 0.0
  let q := Function.update q R_HIP_YAW_PITCH 0.0
  let q := Function.update q R_HIP_ROLL 0.0
  let q := Function.update q R_HIP_PITCH (-0.436332)
  let q := Function.update q R_KNEE_PITCH 0.698132
  let q := Function.update q R_ANKLE_PITCH (-0.349066)
  let q := Function.update q R_ANKLE_ROLL 0.0
  let q := Function.update q L_SHOULDER_PITCH 1.396263
  let q := Function.update q L_SHOULDER_ROLL 0.349066
  let q := Function.update q L_ELBOW_YAW (-1.396263)
  let q := Function.update q L_ELBOW_ROLL (-1.047198)
  let q := Function.update q L_WRIST_YAW 0.0
  let q := Function.update q R_SHOULDER_PITCH 1.396263
  let q := Function.update q R_SHOULDER_ROLL (-0.349066)
  let q := Function.update q R_ELBOW_YAW 1.396263
  let q := Function.update q R_ELBOW_ROLL 1.047198
  let q := Function.update q R_WRIST_YAW 0.0
  let q := Function.update q HEAD_PITCH 0.0
  let q := Function.update q HEAD_YAW 0.0
  { s with q := q }

/-- The constructor `nao_igm::nao_igm`, run on an object `s` whose members hold
arbitrary content. -/
def nao_igm_constructor (s : nao_igm α) : nao_igm α :=
  let s := { s with
    state_var_num := JOINTS_NUM + SUPPORT_FOOT_POS_NUM + SUPPORT_FOOT_ORIENTATION_NUM }
  let s := setBounds s L_HIP_YAW_PITCH (-1.145303) 0.740810
  let s := setBounds s L_HIP_ROLL (-0.379472) 0.790477
  let s := setBounds s L_HIP_PITCH (-1.773912) 0.484090
  let s := setBounds s L_KNEE_PITCH (-0.092346) 2.112528
  let s := setBounds s L_ANKLE_PITCH (-1.189516) 0.922747
  let s := setBounds s L_ANKLE_ROLL (-0.769001) 0.397880
  let s := setBounds s R_HIP_YAW_PITCH (-1.145303) 0.740810
  let s := setBounds s R_HIP_ROLL (-0.738321) 0.414754
  let s := setBounds s R_HIP_PITCH (-1.772308) 0.485624
  let s := setBounds s R_KNEE_PITCH (-0.103083) 2.120198
  let s := setBounds s R_ANKLE_PITCH (-1.186448) 0.932056
  let s := setBounds s R_ANKLE_ROLL (-0.388676) 0.785875
  let s := setBounds s L_SHOULDER_PITCH (-2.085600) 2.085600
  let s := setBounds s L_SHOULDER_ROLL 0.008700 1.649400
  let s := setBounds s L_ELBOW_YAW (-2.085600) 2.085600
  let s := setBounds s L_ELBOW_ROLL (-1.562100) (-0.008700)
  let s := setBounds s L_WRIST_YAW (-1.823800) 1.823800
  let s := setBounds s R_SHOULDER_PITCH (-2.085600) 2.085600
  let s := setBounds s R_SHOULDER_ROLL (-1.649400) (-0.008700)
  let s := setBounds s R_ELBOW_YAW (-2.085600) 2.085600
  let s := setBounds s R_ELBOW_ROLL 0.008700 1.562100
  let s := setBounds s R_WRIST_YAW (-1.823800) 1.823800
  let s := setBounds s HEAD_PITCH (-2.085700) 2.085700
  let s := setBounds s HEAD_YAW (-0.672000) 0.514900
  initJointAngles s

end Construction

/-- A sample state over the integers: every bound is `[-5, 5]`. -/
def sampleState (q : Nat → Int) : nao_igm Int where
  q := q
  q_lower_bound := fun _ => -5
  q_upper_bound := fun _ => 5
  support_foot := IGM_SUPPORT_LEFT
  swing_foot_posture := fun i => 100 + i
  torso_orientation := fun _ => 0
  CoM_position := fun _ => 0
  state_var_num := 36

/-- Sample solvers over the integers, for evaluating the model on concrete
inputs: each returns an array computed from a few entries of `q`. -/
def sampleMaple : maple_functions Int where
  LLeg2RLeg := fun q i => q 24 + 2 * i
  RLeg2LLeg := fun q i => q 25 - i
  LLeg2Torso := fun q i => q 0 + i
  RLeg2Torso := fun q i => q 1 - 3 * i
  LLeg2CoM := fun q i => q 2 + i
  RLeg2CoM := fun q i => q 3 + 7 * i
  Euler2Rot := fun a b c i => a + 2 * b + 3 * c + i
  Euler2T := fun x y z a b c i => x + y + z + a + b + c + i

/-- A sample state over doubles with NaN: every bound is `[-5, 5]`. -/
def sampleStateIeee (q : Nat → ieee Int) : nao_igm (ieee Int) where
  q := q
  q_lower_bound := fun _ => ieee.val (-5)
  q_upper_bound := fun _ => ieee.val 5
  support_foot := IGM_SUPPORT_LEFT
  swing_foot_posture := fun _ => ieee.val 0
  torso_orientation := fun _ => ieee.val 0
  CoM_position := fun _ => ieee.val 0
  state_var_num := 36

/-- The column-wise storage of the quarter turn about the z axis,
`[0 -1 0; 1 0 0; 0 0 1]`. -/
def quarterTurnZ {α : Type} [LinearOrderedCommRing α] : Nat → α :=
  fun i => if i = 1 ∨ i = 8 then 1 else if i = 3 then -1 else 0

/-- Sample collaborators over any scalar type: the solvers return `q` itself
and both Euler builders return the array `E`. -/
def sampleMapleOf {α : Type} (E : Nat → α) : maple_functions α where
  LLeg2RLeg := fun q => q
  RLeg2LLeg := fun q => q
  LLeg2Torso := fun q => q
  RLeg2Torso := fun q => q
  LLeg2CoM := fun q => q
  RLeg2CoM := fun q => q
  Euler2Rot := fun _ _ _ => E
  Euler2T := fun _ _ _ _ _ _ => E

/-! ## Lemmas on the bounds scan -/

section ScanLemmas

variable {α : Type} [LT α] [DecidableRel (fun a b : α => a < b)]

/-- The scan returns -1 exactly when both tests fail at every index it
visits. -/
theorem checkJointBoundsFrom_accepts (s : nao_igm α) (n i : Nat) :
    checkJointBoundsFrom s n i = -1 ↔ ∀ j, i ≤ j → j < i + n → ¬ violates s j := by
  induction n generalizing i with
  | zero =>
    constructor
    · intro _ j h1 h2
      omega
    · intro _
      rfl
  | succ n ih =>
    unfold checkJointBoundsFrom
    by_cases hv : violates s i
    · have hv2 := hv
      unfold violates at hv2
      rw [if_pos hv2]
      constructor
      · intro h
        omega
      · intro h
        exact absurd hv (h i (le_refl i) (by omega))
    · have hv2 := hv
      unfold violates at hv2
      rw [if_neg hv2, ih]
      constructor
      · intro h j h1 h2
        rcases Nat.eq_or_lt_of_le h1 with h3 | h3
        · subst h3
          exact hv
        · exact h j h3 (by omega)
      · intro h j h1 h2
        exact h j (by omega) (by omega)

/-- A result other than -1 is the first index, in ascending order, at which
one of the two tests succeeds. -/
theorem checkJointBoundsFrom_least (s : nao_igm α) (n i : Nat) (r : Int)
    (h : checkJointBoundsFrom s n i = r) (hr : r ≠ -1) :
    ∃ k : Nat, r = (k : Int) ∧ i ≤ k ∧ k < i + n ∧ violates s k ∧
      ∀ j, i ≤ j → j < k → ¬ violates s j := by
  induction n generalizing i with
  | zero =>
    unfold checkJointBoundsFrom at h
    exact absurd h.symm hr
  | succ n ih =>
    unfold checkJointBoundsFrom at h
    by_cases hv : violates s i
    · have hv2 := hv
      unfold violates at hv2
      rw [if_pos hv2] at h
      exact ⟨i, h.symm, le_refl i, by omega, hv, fun j h1 h2 => by omega⟩
    · have hv2 := hv
      unfold violates at hv2
      rw [if_neg hv2] at h
      obtain ⟨k, hk, h1, h2, h3, h4⟩ := ih (i + 1) h
      refine ⟨k, hk, by omega, by omega, h3, ?_⟩
      intro j hj1 hj2
      rcases Nat.eq_or_lt_of_le hj1 with h5 | h5
      · subst h5
        exact hv
      · exact h4 j h5 hj2

theorem checkJointBounds_le_of_violates (s : nao_igm α) (i : Nat)
    (hi : i < JOINTS_NUM) (hv : violates s i) :
    ∃ k : Nat, checkJointBounds s = (k : Int) ∧ k ≤ i ∧ k < JOINTS_NUM ∧ violates s k ∧
      ∀ j, j < k → ¬ violates s j := by
  have hne : checkJointBounds s ≠ -1 := by
    intro h
    exact (checkJointBoundsFrom_accepts s JOINTS_NUM 0).mp h i (Nat.zero_le i) (by omega) hv
  obtain ⟨k, hk, _, h2, h3, h4⟩ := checkJointBoundsFrom_least s JOINTS_NUM 0 _ rfl hne
  refine ⟨k, hk, ?_, by omega, h3, fun j hj => h4 j (Nat.zero_le j) hj⟩
  by_contra hlt
  exact h4 i (Nat.zero_le i) (by omega) hv

theorem checkJointBoundsFrom_congr (s t : nao_igm α) (n i : Nat)
    (h : ∀ j, i ≤ j → j < i + n →
      s.q j = t.q j ∧ s.q_lower_bound j = t.q_lower_bound j ∧
        s.q_upper_bound j = t.q_upper_bound j) :
    checkJointBoundsFrom s n i = checkJointBoundsFrom t n i := by
  induction n generalizing i with
  | zero => rfl
  | succ n ih =>
    unfold checkJointBoundsFrom
    obtain ⟨h1, h2, h3⟩ := h i (le_refl i) (by omega)
    rw [h1, h2, h3, ih (i + 1) (fun j hj1 hj2 => h j (by omega) (by omega))]

theorem checkJointBounds_range (s : nao_igm α) :
    -1 ≤ checkJointBounds s ∧ checkJointBounds s < (JOINTS_NUM : Int) := by
  by_cases h : checkJointBounds s = -1
  · rw [h]
    exact ⟨le_refl _, by decide⟩
  · obtain ⟨k, hk, _, h2, _, _⟩ := checkJointBoundsFrom_least s JOINTS_NUM 0 _ rfl h
    have hk2 : checkJointBounds s = (k : Int) := hk
    rw [hk2]
    omega

end ScanLemmas

section BoundsLemmas

variable {α : Type} [LinearOrderedCommRing α]

/-- Over a total order, failing both tests is lying in the closed interval. -/
theorem not_violates_iff (s : nao_igm α) (j : Nat) : ¬ violates s j ↔ inBounds s j := by
  unfold violates inBounds
  rw [not_or, not_lt, not_lt]

theorem checkJointBoundsFrom_eq_neg_one (s : nao_igm α) (n i : Nat) :
    checkJointBoundsFrom s n i = -1 ↔ ∀ j, i ≤ j → j < i + n → inBounds s j := by
  rw [checkJointBoundsFrom_accepts]
  constructor
  · intro h j h1 h2
    exact (not_violates_iff s j).mp (h j h1 h2)
  · intro h j h1 h2
    exact (not_violates_iff s j).mpr (h j h1 h2)

end BoundsLemmas

/-! ## Lemmas on the comparisons of doubles -/

section IeeeLemmas

variable {β : Type} [LinearOrder β]

theorem ieee_val_lt_val (x y : β) : (ieee.val x < ieee.val y) ↔ x < y := Iff.rfl

theorem ieee_val_le_val (x y : β) : (ieee.val x ≤ ieee.val y) ↔ x ≤ y := Iff.rfl

theorem ieee_not_lt_nan (a : ieee β) : ¬ (a < ieee.nan) := by
  cases a <;> exact fun h => h

theorem ieee_not_nan_lt (a : ieee β) : ¬ (ieee.nan < a) := by
  cases a <;> exact fun h => h

theorem ieee_not_le_nan (a : ieee β) : ¬ (a ≤ ieee.nan) := by
  cases a <;> exact fun h => h

theorem ieee_not_nan_le (a : ieee β) : ¬ (ieee.nan ≤ a) := by
  cases a <;> exact fun h => h

/-- A strict comparison that holds has two operands that are not NaN. -/
theorem ieee_exists_of_lt {a b : ieee β} (h : a < b) :
    ∃ x y : β, a = ieee.val x ∧ b = ieee.val y ∧ x < y := by
  cases a with
  | nan => exact absurd h (ieee_not_nan_lt b)
  | val x =>
    cases b with
    | nan => exact absurd h (ieee_not_lt_nan _)
    | val y => exact ⟨x, y, rfl, rfl, h⟩

/-- A comparison `<=` that holds has two operands that are not NaN. -/
theorem ieee_exists_of_le {a b : ieee β} (h : a ≤ b) :
    ∃ x y : β, a = ieee.val x ∧ b = ieee.val y ∧ x ≤ y := by
  cases a with
  | nan => exact absurd h (ieee_not_nan_le b)
  | val x =>
    cases b with
    | nan => exact absurd h (ieee_not_le_nan _)
    | val y => exact ⟨x, y, rfl, rfl, h⟩

/-- For an angle and two bounds that are not NaN, failing both tests of
`checkJointBounds` is lying in the closed interval. -/
theorem ieee_not_violates_iff (s : nao_igm (ieee β)) (j : Nat)
    (hq : s.q j ≠ ieee.nan) (hl : s.q_lower_bound j ≠ ieee.nan)
    (hu : s.q_upper_bound j ≠ ieee.nan) :
    ¬ violates s j ↔ (s.q_lower_bound j ≤ s.q j ∧ s.q j ≤ s.q_upper_bound j) := by
  unfold violates
  cases hq2 : s.q j with
  | nan => exact absurd hq2 hq
  | val x =>
    cases hl2 : s.q_lower_bound j with
    | nan => exact absurd hl2 hl
    | val l =>
      cases hu2 : s.q_upper_bound j with
      | nan => exact absurd hu2 hu
      | val u =>
        show ¬ (x < l ∨ u < x) ↔ (l ≤ x ∧ x ≤ u)
        rw [not_or, not_lt, not_lt]

/-- A NaN angle fails both tests of `checkJointBounds`. -/
theorem ieee_nan_not_violates (s : nao_igm (ieee β)) (j : Nat) (hq : s.q j = ieee.nan) :
    ¬ violates s j := by
  unfold violates
  rw [hq]
  intro h
  rcases h with h | h
  · exact ieee_not_nan_lt _ h
  · exact ieee_not_lt_nan _ h

end IeeeLemmas

/-! ## Lemmas on the support-foot region -/

section AnchorLemmas

variable {α : Type} [LinearOrderedCommRing α]

theorem pos_region_indices :
    List.range' SUPPORT_FOOT_POS_START SUPPORT_FOOT_POS_NUM = [24, 25, 26] := rfl

theorem orientation_region_indices :
    List.range' SUPPORT_FOOT_ORIENTATION_START SUPPORT_FOOT_ORIENTATION_NUM =
      [27, 28, 29, 30, 31, 32, 33, 34, 35] := rfl

omit [LinearOrderedCommRing α] in
theorem refreshDerivedState_q (M : maple_functions α) (s : nao_igm α) :
    (refreshDerivedState M s).q = s.q := rfl

omit [LinearOrderedCommRing α] in
theorem refreshDerivedState_support_foot (M : maple_functions α) (s : nao_igm α) :
    (refreshDerivedState M s).support_foot = s.support_foot := rfl

omit [LinearOrderedCommRing α] in
/-- The configuration written by `init`, as an explicit chain of
assignments. -/
theorem init_q (M : maple_functions α) (s : nao_igm α) (foot : igmSupportFoot)
    (sp so : Nat → α) :
    (init M s foot sp so).q =
      Function.update (Function.update (Function.update (Function.update (Function.update
      (Function.update (Function.update (Function.update (Function.update (Function.update
      (Function.update (Function.update s.q 24 (sp 0)) 25 (sp 1)) 26 (sp 2))
        27 (so 0)) 28 (so 1)) 29 (so 2)) 30 (so 3)) 31 (so 4)) 32 (so 5))
        33 (so 6)) 34 (so 7)) 35 (so 8) := by
  unfold init
  rw [refreshDerivedState_q, pos_region_indices, orientation_region_indices]
  rfl

/-- The configuration written by `switchSupportFoot`, as an explicit chain of
assignments from the cached swing-foot pose `p`. -/
theorem switchSupportFoot_q (M : maple_functions α) (s : nao_igm α) :
    (switchSupportFoot M s).q =
      Function.update (Function.update (Function.update (Function.update (Function.update
      (Function.update (Function.update (Function.update (Function.update (Function.update
      (Function.update (Function.update s.q 24 (s.swing_foot_posture 12))
        25 (s.swing_foot_posture 13)) 26 (s.swing_foot_posture 14))
        27 (s.swing_foot_posture 0)) 28 (s.swing_foot_posture 1))
        29 (s.swing_foot_posture 2)) 30 (s.swing_foot_posture 4))
        31 (s.swing_foot_posture 5)) 32 (s.swing_foot_posture 6))
        33 (s.swing_foot_posture 8)) 34 (s.swing_foot_posture 9))
        35 (s.swing_foot_posture 10) := by
  unfold switchSupportFoot
  rw [refreshDerivedState_q, pos_region_indices, orientation_region_indices]
  simp [T2Rot, Function.update, SUPPORT_FOOT_POS_START, SUPPORT_FOOT_ORIENTATION_START]

omit [LinearOrderedCommRing α] in
/-- The nine entries written by `T2Rot` do not depend on the previous content
of the output array. -/
theorem T2Rot_entries (T Rot : Nat → α) (r c : Nat) (hr : r < 3) (hc : c < 3) :
    T2Rot T Rot (3 * c + r) = T (4 * c + r) := by
  interval_cases r <;> interval_cases c <;> simp [T2Rot, Function.update]

omit [LinearOrderedCommRing α] in
theorem T2Rot_buffer_irrelevant (T Rot Rot2 : Nat → α) (k : Nat) (hk : k < 9) :
    T2Rot T Rot k = T2Rot T Rot2 k := by
  interval_cases k <;> simp [T2Rot, Function.update]

omit [LinearOrderedCommRing α] in
/-- After the refresh block the derived state is the solvers' output at the
state's own `q`, dispatched on the state's own `support_foot`. -/
theorem refreshDerivedState_coherent (M : maple_functions α) (s : nao_igm α) :
    ((refreshDerivedState M s).support_foot = IGM_SUPPORT_LEFT →
      (refreshDerivedState M s).swing_foot_posture = M.LLeg2RLeg (refreshDerivedState M s).q ∧
      (refreshDerivedState M s).CoM_position = M.LLeg2CoM (refreshDerivedState M s).q ∧
      ∀ (Rot : Nat → α) (k : Nat), k < ORIENTATION_MATRIX_SIZE →
        (refreshDerivedState M s).torso_orientation k =
          T2Rot (M.LLeg2Torso (refreshDerivedState M s).q) Rot k) ∧
    ((refreshDerivedState M s).support_foot = IGM_SUPPORT_RIGHT →
      (refreshDerivedState M s).swing_foot_posture = M.RLeg2LLeg (refreshDerivedState M s).q ∧
      (refreshDerivedState M s).CoM_position = M.RLeg2CoM (refreshDerivedState M s).q ∧
      ∀ (Rot : Nat → α) (k : Nat), k < ORIENTATION_MATRIX_SIZE →
        (refreshDerivedState M s).torso_orientation k =
          T2Rot (M.RLeg2Torso (refreshDerivedState M s).q) Rot k) := by
  rw [refreshDerivedState_q, refreshDerivedState_support_foot]
  constructor
  · intro h
    refine ⟨?_, ?_, ?_⟩
    · simp [refreshDerivedState, h]
    · simp [refreshDerivedState, h]
    · intro Rot k hk
      simp only [refreshDerivedState, h, if_true]
      exact T2Rot_buffer_irrelevant _ _ _ k hk
  · intro h
    refine ⟨?_, ?_, ?_⟩
    · simp [refreshDerivedState, h]
    · simp [refreshDerivedState, h]
    · intro Rot k hk
      simp only [refreshDerivedState, h]
      exact T2Rot_buffer_irrelevant _ _ _ k hk

end AnchorLemmas

/-! ## Claims on `checkJointBounds` -/

section BoundsClaims

variable {β : Type} [LinearOrderedCommRing β]

/-- C1 (amended): `checkJointBounds` returns -1 if and only if no body joint
`i` in `[0, JOINTS_NUM)` has `q_lower_bound[i] > q[i]` or
`q_upper_bound[i] < q[i]`. When no body-joint angle or bound is NaN, that is:
if and only if every body joint satisfies
`q_lower_bound[i] <= q[i] <= q_upper_bound[i]`. A joint whose angle is NaN
fails both tests and is accepted. The interval is closed: when the other body
joints pass both tests and `q_lower_bound[i] <= q_upper_bound[i]`, the angle
`q[i]` set to exactly its lower or exactly its upper bound is accepted. -/
theorem C1_checkJointBounds_accepts_iff (s : nao_igm (ieee β)) :
    (checkJointBounds s = -1 ↔
      ∀ i, i < JOINTS_NUM →
        ¬ (s.q_lower_bound i > s.q i) ∧ ¬ (s.q_upper_bound i < s.q i)) ∧
    ((∀ i, i < JOINTS_NUM →
        s.q i ≠ ieee.nan ∧ s.q_lower_bound i ≠ ieee.nan ∧ s.q_upper_bound i ≠ ieee.nan) →
      (checkJointBounds s = -1 ↔
        ∀ i, i < JOINTS_NUM → s.q_lower_bound i ≤ s.q i ∧ s.q i ≤ s.q_upper_bound i)) ∧
    (∀ i, s.q i = ieee.nan →
      ¬ (s.q_lower_bound i > s.q i) ∧ ¬ (s.q_upper_bound i < s.q i)) ∧
    (∀ i v, i < JOINTS_NUM → (v = s.q_lower_bound i ∨ v = s.q_upper_bound i) →
      s.q_lower_bound i ≤ s.q_upper_bound i →
      (∀ j, j < JOINTS_NUM → j ≠ i →
        ¬ (s.q_lower_bound j > s.q j) ∧ ¬ (s.q_upper_bound j < s.q j)) →
      checkJointBounds { s with q := Function.update s.q i v } = -1) := by
  have key : ∀ t : nao_igm (ieee β), checkJointBounds t = -1 ↔
      ∀ i, i < JOINTS_NUM → ¬ violates t i := by
    intro t
    unfold checkJointBounds
    rw [checkJointBoundsFrom_accepts]
    constructor
    · intro h i hi
      exact h i (Nat.zero_le i) (by omega)
    · intro h j _ hj
      exact h j (by omega)
  refine ⟨?_, ?_, ?_, ?_⟩
  · rw [key]
    constructor
    · intro h i hi
      exact not_or.mp (h i hi)
    · intro h i hi
      exact not_or.mpr (h i hi)
  · intro hnan
    rw [key]
    constructor
    · intro h i hi
      obtain ⟨h1, h2, h3⟩ := hnan i hi
      exact (ieee_not_violates_iff s i h1 h2 h3).mp (h i hi)
    · intro h i hi
      obtain ⟨h1, h2, h3⟩ := hnan i hi
      exact (ieee_not_violates_iff s i h1 h2 h3).mpr (h i hi)
  · intro i hi
    exact not_or.mp (ieee_nan_not_violates s i hi)
  · intro i v hi hv hle hothers
    rw [key]
    intro j hj
    by_cases hji : j = i
    · subst hji
      obtain ⟨l, u, hl, hu, hlu⟩ := ieee_exists_of_le hle
      unfold violates
      simp only [Function.update_same]
      rw [hl, hu]
      rcases hv with hv | hv
      · rw [hv, hl]
        exact not_or.mpr ⟨lt_irrefl l, not_lt.mpr hlu⟩
      · rw [hv, hu]
        exact not_or.mpr ⟨not_lt.mpr hlu, lt_irrefl u⟩
    · unfold violates
      simp only [Function.update_noteq hji]
      exact not_or.mpr (hothers j hj hji)

/-- C17 (amended): inverted bounds are not special-cased. After
`setBounds(i, lo, hi)` with `lo > hi` for a body joint `i`, the pair is stored
verbatim, no other joint's bounds and no angle are changed, and for every
value of `q[i]` other than NaN `checkJointBounds` does not return -1: it
returns an index in `0..i`. With `q[i]` NaN joint `i` fails both tests, and
the scan returns -1 when the other body joints fail them too. -/
theorem C17_inverted_bounds_reject (s : nao_igm (ieee β)) (i : Nat) (lo hi : ieee β)
    (hi_body : i < JOINTS_NUM) (hinv : hi < lo) :
    (setBounds s i lo hi).q_lower_bound i = lo ∧
    (setBounds s i lo hi).q_upper_bound i = hi ∧
    (∀ j, j ≠ i →
      (setBounds s i lo hi).q_lower_bound j = s.q_lower_bound j ∧
      (setBounds s i lo hi).q_upper_bound j = s.q_upper_bound j) ∧
    (setBounds s i lo hi).q = s.q ∧
    (∀ x : β,
      checkJointBounds
        { setBounds s i lo hi with q := Function.update s.q i (ieee.val x) } ≠ -1 ∧
      0 ≤ checkJointBounds
        { setBounds s i lo hi with q := Function.update s.q i (ieee.val x) } ∧
      checkJointBounds
        { setBounds s i lo hi with q := Function.update s.q i (ieee.val x) } ≤ (i : Int)) ∧
    ((∀ j, j < JOINTS_NUM → j ≠ i →
        ¬ (s.q_lower_bound j > s.q j) ∧ ¬ (s.q_upper_bound j < s.q j)) →
      checkJointBounds
        { setBounds s i lo hi with q := Function.update s.q i ieee.nan } = -1) := by
  refine ⟨?_, ?_, ?_, rfl, ?_, ?_⟩
  · simp [setBounds]
  · simp [setBounds]
  · intro j hj
    simp [setBounds, Function.update_noteq hj]
  · intro x
    obtain ⟨h, l, hh, hl, hlt⟩ := ieee_exists_of_lt hinv
    have hviol :
        violates { setBounds s i lo hi with q := Function.update s.q i (ieee.val x) } i := by
      unfold violates
      simp only [setBounds, Function.update_same]
      rw [hh, hl]
      rcases lt_or_le x l with h1 | h1
      · exact Or.inl ((ieee_val_lt_val _ _).mpr h1)
      · exact Or.inr ((ieee_val_lt_val _ _).mpr (lt_of_lt_of_le hlt h1))
    obtain ⟨k, hk, h1, _, _, _⟩ := checkJointBounds_le_of_violates _ i hi_body hviol
    rw [hk]
    refine ⟨by omega, by omega, by omega⟩
  · intro hothers
    unfold checkJointBounds
    rw [checkJointBoundsFrom_accepts]
    intro j _ hj
    by_cases hji : j = i
    · subst hji
      exact ieee_nan_not_violates _ j (by simp)
    · unfold violates
      simp only [setBounds, Function.update_noteq hji]
      exact not_or.mpr (hothers j (by omega) hji)

end BoundsClaims

/-- C1 refuted as stated: joint 3 holds NaN and every other joint holds 0
within `[-5, 5]`; the scan returns -1 although joint 3 does not satisfy
`q_lower_bound[3] <= q[3] <= q_upper_bound[3]`. -/
theorem C1_nan_angle_counterexample :
    checkJointBounds
        (sampleStateIeee (fun i => if i = 3 then ieee.nan else ieee.val 0)) = -1 ∧
      ¬ (∀ i, i < JOINTS_NUM →
        (sampleStateIeee (fun i => if i = 3 then ieee.nan else ieee.val 0)).q_lower_bound i ≤
            (sampleStateIeee (fun i => if i = 3 then ieee.nan else ieee.val 0)).q i ∧
          (sampleStateIeee (fun i => if i = 3 then ieee.nan else ieee.val 0)).q i ≤
            (sampleStateIeee
              (fun i => if i = 3 then ieee.nan else ieee.val 0)).q_upper_bound i) := by
  decide

/-- C1 (amended) at a concrete state without NaN: joint 3 sits exactly on its
upper bound 5 and every other joint exactly on its lower bound -5; the scan
returns -1. -/
theorem C1_checkJointBounds_accepts_iff_witness :
    checkJointBounds
      (sampleStateIeee (fun i => if i = 3 then ieee.val 5 else ieee.val (-5))) = -1 :=
  ((C1_checkJointBounds_accepts_iff
    (sampleStateIeee (fun i => if i = 3 then ieee.val 5 else ieee.val (-5)))).2.1
    (by decide)).mpr (by decide)

/-- C17 refuted as stated: joint 2 gets the inverted pair `(3, -3)` and
`q[2]` is NaN, the other joints hold 0 within `[-5, 5]`; the scan returns
-1. -/
theorem C17_nan_angle_counterexample :
    (ieee.val (-3) : ieee Int) < ieee.val 3 ∧
      checkJointBounds
        { setBounds (sampleStateIeee (fun _ => ieee.val 0)) 2 (ieee.val 3) (ieee.val (-3)) with
          q := Function.update (sampleStateIeee (fun _ => ieee.val 0)).q 2 ieee.nan } = -1 := by
  decide

/-- C17 (amended) at a concrete input: joint 2 gets the inverted pair
`(3, -3)`; with `q[2] = 0` the scan does not return -1. -/
theorem C17_inverted_bounds_reject_witness :
    checkJointBounds
      { setBounds (sampleStateIeee (fun _ => ieee.val 0)) 2 (ieee.val 3) (ieee.val (-3)) with
        q := Function.update (sampleStateIeee (fun _ => ieee.val 0)).q 2 (ieee.val 0) } ≠ -1 :=
  ((C17_inverted_bounds_reject (sampleStateIeee (fun _ => ieee.val 0)) 2
    (ieee.val 3) (ieee.val (-3)) (by decide) (by decide)).2.2.2.2.1 0).1

/-! ## Claims on `switchSupportFoot`, `init` and the getters -/

section AnchorClaims

variable {α : Type} [LinearOrderedCommRing α]

/-- C3: `switchSupportFoot` re-anchors the configuration at the cached
swing-foot pose. For every state, after the call
`q[SUPPORT_FOOT_POS_START + k]` equals the old `swing_foot_posture[12 + k]`
for `k = 0, 1, 2`, and `q[SUPPORT_FOOT_ORIENTATION_START + 3c + r]` equals the
old `swing_foot_posture[4c + r]` for `r, c` in `0..2`. -/
theorem C3_switchSupportFoot_reanchors (M : maple_functions α) (s : nao_igm α) :
    (∀ k, k < 3 →
      (switchSupportFoot M s).q (SUPPORT_FOOT_POS_START + k) =
        s.swing_foot_posture (12 + k)) ∧
    (∀ r c, r < 3 → c < 3 →
      (switchSupportFoot M s).q (SUPPORT_FOOT_ORIENTATION_START + 3 * c + r) =
        s.swing_foot_posture (4 * c + r)) := by
  rw [switchSupportFoot_q]
  constructor
  · intro k hk
    interval_cases k <;> simp [Function.update, SUPPORT_FOOT_POS_START]
  · intro r c hr hc
    interval_cases r <;> interval_cases c <;>
      simp [Function.update, SUPPORT_FOOT_ORIENTATION_START]

/-- C4: `switchSupportFoot` always flips the support-foot identity: LEFT
becomes RIGHT, RIGHT becomes LEFT, it never stays the same; the identity
remains one of the two values, and two consecutive calls return it to its
original value. -/
theorem C4_switchSupportFoot_flips (M : maple_functions α) (s : nao_igm α) :
    (s.support_foot = IGM_SUPPORT_LEFT →
      (switchSupportFoot M s).support_foot = IGM_SUPPORT_RIGHT) ∧
    (s.support_foot = IGM_SUPPORT_RIGHT →
      (switchSupportFoot M s).support_foot = IGM_SUPPORT_LEFT) ∧
    (switchSupportFoot M s).support_foot ≠ s.support_foot ∧
    ((switchSupportFoot M s).support_foot = IGM_SUPPORT_LEFT ∨
      (switchSupportFoot M s).support_foot = IGM_SUPPORT_RIGHT) ∧
    (switchSupportFoot M (switchSupportFoot M s)).support_foot = s.support_foot := by
  have h : ∀ t : nao_igm α, (switchSupportFoot M t).support_foot =
      (if t.support_foot = IGM_SUPPORT_LEFT then IGM_SUPPORT_RIGHT
       else if t.support_foot = IGM_SUPPORT_RIGHT then IGM_SUPPORT_LEFT
       else t.support_foot) := fun _ => rfl
  rw [h (switchSupportFoot M s), h s]
  cases s.support_foot <;> simp

/-- C6: derived-state coherence after `init` and after `switchSupportFoot`.
For the state `t` returned by either call, with its support foot and its
configuration `t.q`: `swing_foot_posture` equals `LLeg2RLeg(t.q)` if the foot
is LEFT and `RLeg2LLeg(t.q)` if it is RIGHT, `CoM_position` equals
`LLeg2CoM(t.q)` resp. `RLeg2CoM(t.q)`, and the nine entries of
`torso_orientation` are those `T2Rot` writes from `LLeg2Torso(t.q)` resp.
`RLeg2Torso(t.q)`. For `switchSupportFoot`, `t.q` is the re-anchored
configuration and `t.support_foot` the new identity. -/
theorem C6_derived_state_coherent (M : maple_functions α) (s : nao_igm α)
    (foot : igmSupportFoot) (sup_position sup_orientation : Nat → α) (t : nao_igm α)
    (ht : t = init M s foot sup_position sup_orientation ∨ t = switchSupportFoot M s) :
    (t.support_foot = IGM_SUPPORT_LEFT →
      t.swing_foot_posture = M.LLeg2RLeg t.q ∧
      t.CoM_position = M.LLeg2CoM t.q ∧
      ∀ (Rot : Nat → α) (k : Nat), k < ORIENTATION_MATRIX_SIZE →
        t.torso_orientation k = T2Rot (M.LLeg2Torso t.q) Rot k) ∧
    (t.support_foot = IGM_SUPPORT_RIGHT →
      t.swing_foot_posture = M.RLeg2LLeg t.q ∧
      t.CoM_position = M.RLeg2CoM t.q ∧
      ∀ (Rot : Nat → α) (k : Nat), k < ORIENTATION_MATRIX_SIZE →
        t.torso_orientation k = T2Rot (M.RLeg2Torso t.q) Rot k) := by
  rcases ht with ht | ht
  · rw [ht]
    exact refreshDerivedState_coherent M _
  · rw [ht]
    exact refreshDerivedState_coherent M _

end AnchorClaims

/-- C4 at a concrete state: a LEFT-support state becomes RIGHT-support. -/
theorem C4_switchSupportFoot_flips_witness :
    (switchSupportFoot sampleMaple (sampleState (fun _ => 0))).support_foot =
      IGM_SUPPORT_RIGHT :=
  (C4_switchSupportFoot_flips sampleMaple (sampleState (fun _ => 0))).1 rfl

/-- C6 at a concrete state: after switching a LEFT-support state the foot is
RIGHT and the cached derived state is the RIGHT-support solvers' output at the
new configuration. -/
theorem C6_derived_state_coherent_witness :
    (switchSupportFoot sampleMaple (sampleState (fun _ => 0))).swing_foot_posture =
        sampleMaple.RLeg2LLeg (switchSupportFoot sampleMaple (sampleState (fun _ => 0))).q ∧
      (switchSupportFoot sampleMaple (sampleState (fun _ => 0))).CoM_position =
        sampleMaple.RLeg2CoM (switchSupportFoot sampleMaple (sampleState (fun _ => 0))).q ∧
      ∀ (Rot : Nat → Int) (k : Nat), k < ORIENTATION_MATRIX_SIZE →
        (switchSupportFoot sampleMaple (sampleState (fun _ => 0))).torso_orientation k =
          T2Rot (sampleMaple.RLeg2Torso
            (switchSupportFoot sampleMaple (sampleState (fun _ => 0))).q) Rot k :=
  (C6_derived_state_coherent sampleMaple (sampleState (fun _ => 0)) IGM_SUPPORT_LEFT
    (fun _ => 0) (fun _ => 0) (switchSupportFoot sampleMaple (sampleState (fun _ => 0)))
    (Or.inr rfl)).2 rfl

section FrameClaims

variable {α : Type}

/-- C7: for every configuration `q` and support foot, `getUpdatedCoM` outputs
exactly the three components of `LLeg2CoM(q)` (LEFT) or `RLeg2CoM(q)` (RIGHT),
and `getUpdatedSwingFoot` outputs exactly entries 12, 13, 14 of `LLeg2RLeg(q)`
(LEFT) or `RLeg2LLeg(q)` (RIGHT); neither call changes `q` or the support-foot
identity. -/
theorem C7_getters_are_solver_outputs (M : maple_functions α) (s : nao_igm α)
    (out : Nat → α) :
    (s.support_foot = IGM_SUPPORT_LEFT →
      (∀ k, k < 3 → (getUpdatedCoM M s out).2 k = M.LLeg2CoM s.q k) ∧
      (∀ k, k < 3 → (getUpdatedSwingFoot M s out).2 k = M.LLeg2RLeg s.q (12 + k))) ∧
    (s.support_foot = IGM_SUPPORT_RIGHT →
      (∀ k, k < 3 → (getUpdatedCoM M s out).2 k = M.RLeg2CoM s.q k) ∧
      (∀ k, k < 3 → (getUpdatedSwingFoot M s out).2 k = M.RLeg2LLeg s.q (12 + k))) ∧
    (getUpdatedCoM M s out).1.q = s.q ∧
    (getUpdatedCoM M s out).1.support_foot = s.support_foot ∧
    (getUpdatedSwingFoot M s out).1.q = s.q ∧
    (getUpdatedSwingFoot M s out).1.support_foot = s.support_foot := by
  refine ⟨?_, ?_, ?_, ?_, ?_, ?_⟩
  · intro h
    constructor
    · intro k hk
      interval_cases k <;> simp [getUpdatedCoM, h, Function.update]
    · intro k hk
      interval_cases k <;> simp [getUpdatedSwingFoot, h, Function.update]
  · intro h
    constructor
    · intro k hk
      interval_cases k <;> simp [getUpdatedCoM, h, Function.update]
    · intro k hk
      interval_cases k <;> simp [getUpdatedSwingFoot, h, Function.update]
  · unfold getUpdatedCoM
    cases s.support_foot <;> rfl
  · unfold getUpdatedCoM
    cases s.support_foot <;> rfl
  · unfold getUpdatedSwingFoot
    cases s.support_foot <;> rfl
  · unfold getUpdatedSwingFoot
    cases s.support_foot <;> rfl

/-- C8: `init(foot, sup_position, sup_orientation)` sets the support-foot
identity to `foot`, sets `q[SUPPORT_FOOT_POS_START + k] = sup_position[k]` for
`k` in `0..2` and `q[SUPPORT_FOOT_ORIENTATION_START + k] = sup_orientation[k]`
for `k` in `0..8`, and leaves every body-joint angle `q[0..JOINTS_NUM-1]` and
both bound tables unchanged. -/
theorem C8_init_writes_anchor (M : maple_functions α) (s : nao_igm α)
    (foot : igmSupportFoot) (sup_position sup_orientation : Nat → α) :
    (init M s foot sup_position sup_orientation).support_foot = foot ∧
    (∀ k, k < 3 →
      (init M s foot sup_position sup_orientation).q (SUPPORT_FOOT_POS_START + k) =
        sup_position k) ∧
    (∀ k, k < 9 →
      (init M s foot sup_position sup_orientation).q (SUPPORT_FOOT_ORIENTATION_START + k) =
        sup_orientation k) ∧
    (∀ i, i < JOINTS_NUM →
      (init M s foot sup_position sup_orientation).q i = s.q i) ∧
    (init M s foot sup_position sup_orientation).q_lower_bound = s.q_lower_bound ∧
    (init M s foot sup_position sup_orientation).q_upper_bound = s.q_upper_bound := by
  refine ⟨rfl, ?_, ?_, ?_, rfl, rfl⟩
  · intro k hk
    rw [init_q]
    interval_cases k <;> simp [Function.update, SUPPORT_FOOT_POS_START]
  · intro k hk
    rw [init_q]
    interval_cases k <;> simp [Function.update, SUPPORT_FOOT_ORIENTATION_START]
  · intro i hi
    rw [init_q]
    have h1 : i < 24 := hi
    simp [Function.update, show i ≠ 24 by omega, show i ≠ 25 by omega, show i ≠ 26 by omega,
      show i ≠ 27 by omega, show i ≠ 28 by omega, show i ≠ 29 by omega,
      show i ≠ 30 by omega, show i ≠ 31 by omega, show i ≠ 32 by omega,
      show i ≠ 33 by omega, show i ≠ 34 by omega, show i ≠ 35 by omega]

/-- C9: `SetBasePose(x, y, z, alpha, beta, gamma)` writes exactly the
support-foot region that `init` writes. Afterwards `q[24..26] = (x, y, z)` and
`q[27 + k] = Rot[k]` for every `k` in `0..8`, where
`Rot = Euler2Rot(alpha, beta, gamma)`; the indices 24 and 27 are
`SUPPORT_FOOT_POS_START` and `SUPPORT_FOOT_ORIENTATION_START`; every body-joint
angle `q[0..23]` is unchanged; and the resulting `q` equals the `q` that `init`
produces from a `sup_position` holding `(x, y, z)` and
`sup_orientation = Euler2Rot(alpha, beta, gamma)`. -/
theorem C9_SetBasePose_matches_init (M : maple_functions α) (s : nao_igm α)
    (foot : igmSupportFoot) (x y z alpha beta gamma : α) (sup_position : Nat → α)
    (hpos : sup_position 0 = x ∧ sup_position 1 = y ∧ sup_position 2 = z) :
    (SetBasePose M s x y z alpha beta gamma).q 24 = x ∧
    (SetBasePose M s x y z alpha beta gamma).q 25 = y ∧
    (SetBasePose M s x y z alpha beta gamma).q 26 = z ∧
    (∀ k, k < 9 →
      (SetBasePose M s x y z alpha beta gamma).q (27 + k) = M.Euler2Rot alpha beta gamma k) ∧
    (SUPPORT_FOOT_POS_START = 24 ∧ SUPPORT_FOOT_ORIENTATION_START = 27) ∧
    (∀ i, i < 24 → (SetBasePose M s x y z alpha beta gamma).q i = s.q i) ∧
    (SetBasePose M s x y z alpha beta gamma).q =
      (init M s foot sup_position (M.Euler2Rot alpha beta gamma)).q := by
  obtain ⟨h0, h1, h2⟩ := hpos
  refine ⟨?_, ?_, ?_, ?_, ⟨rfl, rfl⟩, ?_, ?_⟩
  · simp [SetBasePose, Function.update]
  · simp [SetBasePose, Function.update]
  · simp [SetBasePose, Function.update]
  · intro k hk
    interval_cases k <;> simp [SetBasePose, Function.update]
  · intro i hi
    simp [SetBasePose, Function.update, show i ≠ 24 by omega, show i ≠ 25 by omega,
      show i ≠ 26 by omega, show i ≠ 27 by omega, show i ≠ 28 by omega,
      show i ≠ 29 by omega, show i ≠ 30 by omega, show i ≠ 31 by omega,
      show i ≠ 32 by omega, show i ≠ 33 by omega, show i ≠ 34 by omega,
      show i ≠ 35 by omega]
  · rw [init_q, h0, h1, h2]
    funext i
    by_cases hi : 24 ≤ i ∧ i ≤ 35
    · obtain ⟨hlo, hhi⟩ := hi
      interval_cases i <;> simp [SetBasePose, Function.update]
    · simp [SetBasePose, Function.update, show i ≠ 24 by omega, show i ≠ 25 by omega,
        show i ≠ 26 by omega, show i ≠ 27 by omega, show i ≠ 28 by omega,
        show i ≠ 29 by omega, show i ≠ 30 by omega, show i ≠ 31 by omega,
        show i ≠ 32 by omega, show i ≠ 33 by omega, show i ≠ 34 by omega,
        show i ≠ 35 by omega]

end FrameClaims

/-- C7 at a concrete state: under LEFT support the getters return the
components of the left-leg solvers. -/
theorem C7_getters_are_solver_outputs_witness :
    (∀ k, k < 3 →
      (getUpdatedCoM sampleMaple (sampleState (fun i => i)) (fun _ => 0)).2 k =
        sampleMaple.LLeg2CoM (sampleState (fun i => i)).q k) ∧
    (∀ k, k < 3 →
      (getUpdatedSwingFoot sampleMaple (sampleState (fun i => i)) (fun _ => 0)).2 k =
        sampleMaple.LLeg2RLeg (sampleState (fun i => i)).q (12 + k)) :=
  (C7_getters_are_solver_outputs sampleMaple (sampleState (fun i => i)) (fun _ => 0)).1 rfl

/-- C9 at a concrete input: base pose `(1, 2, 3)` with angles `(4, 5, 6)` on
the sample state. -/
theorem C9_SetBasePose_matches_init_witness :
    (SetBasePose sampleMaple (sampleState (fun i => i)) 1 2 3 4 5 6).q =
      (init sampleMaple (sampleState (fun i => i)) IGM_SUPPORT_RIGHT (fun k => 1 + k)
        (sampleMaple.Euler2Rot 4 5 6)).q :=
  (C9_SetBasePose_matches_init sampleMaple (sampleState (fun i => i)) IGM_SUPPORT_RIGHT
    1 2 3 4 5 6 (fun k => 1 + k) (by decide)).2.2.2.2.2.2

/-! ## Claims on the rotation builders -/

section RotationClaims

/-- The entries `rpy2R` writes form the product of the three elementary
rotations, for any sine and cosine functions over a commutative ring. -/
theorem rpy2R_eq_product {α : Type} [LinearOrderedCommRing α] (sin cos : α → α)
    (roll pitch yaw : α) (R : Nat → α) :
    colMajor3 (rpy2R sin cos roll pitch yaw R) =
      Rx sin cos roll * Ry sin cos pitch * Rz sin cos yaw := by
  ext r c
  fin_cases r <;> fin_cases c <;>
    simp [colMajor3, rpy2R, Rx, Ry, Rz, Matrix.mul_apply, Fin.sum_univ_three,
      Function.update]

/-- C10: for all real roll, pitch, yaw, the column-major 3x3 matrix written by
`rpy2R` equals the product `Rx(roll) * Ry(pitch) * Rz(yaw)` of the elementary
rotations about x, y and z. -/
theorem C10_rpy2R_is_Rx_Ry_Rz (roll pitch yaw : ℝ) (R : Nat → ℝ) :
    colMajor3 (rpy2R Real.sin Real.cos roll pitch yaw R) =
      Rx Real.sin Real.cos roll * Ry Real.sin Real.cos pitch * Rz Real.sin Real.cos yaw :=
  rpy2R_eq_product Real.sin Real.cos roll pitch yaw R

end RotationClaims

/-! ## Claims on the frame of the bounds scan -/

section ScanFrameClaims

variable {α : Type} [LinearOrderedCommRing α]

/-- C16: `checkJointBounds` does not depend on the support-foot region. For
two states that agree on the body joints `q[0..JOINTS_NUM-1]` and on the bound
tables of the body joints (and differ arbitrarily elsewhere, in particular in
the 12 support-foot entries), it returns the same value; the value is -1 or an
index below `JOINTS_NUM`; and the call leaves the object as it was. -/
theorem C16_checkJointBounds_ignores_anchor (s t : nao_igm α)
    (hq : ∀ i, i < JOINTS_NUM → s.q i = t.q i)
    (hl : ∀ i, i < JOINTS_NUM → s.q_lower_bound i = t.q_lower_bound i)
    (hu : ∀ i, i < JOINTS_NUM → s.q_upper_bound i = t.q_upper_bound i) :
    checkJointBounds s = checkJointBounds t ∧
    (-1 ≤ checkJointBounds s ∧ checkJointBounds s < (JOINTS_NUM : Int)) ∧
    (checkJointBoundsCall s).1 = s ∧
    (checkJointBoundsCall s).2 = checkJointBounds s := by
  refine ⟨?_, checkJointBounds_range s, rfl, rfl⟩
  unfold checkJointBounds
  apply checkJointBoundsFrom_congr
  intro j _ hj
  exact ⟨hq j (by omega), hl j (by omega), hu j (by omega)⟩

/-- C20: `switchSupportFoot` re-parameterises the anchor only. Every body-joint
angle `q[0..JOINTS_NUM-1]` and every entry of `q_lower_bound` and
`q_upper_bound` is the same after the call as before, so the value returned by
`checkJointBounds` is unchanged by a switch. The new configuration is taken
from the cached `swing_foot_posture`: it is the same whatever the solvers
return, and its 12 anchor entries are the same for any two states with the
same cache, whatever their joint angles. -/
theorem C20_switchSupportFoot_frame (M : maple_functions α) (s : nao_igm α) :
    (∀ i, i < JOINTS_NUM → (switchSupportFoot M s).q i = s.q i) ∧
    (switchSupportFoot M s).q_lower_bound = s.q_lower_bound ∧
    (switchSupportFoot M s).q_upper_bound = s.q_upper_bound ∧
    checkJointBounds (switchSupportFoot M s) = checkJointBounds s ∧
    (∀ M2 : maple_functions α, (switchSupportFoot M2 s).q = (switchSupportFoot M s).q) ∧
    (∀ t : nao_igm α, t.swing_foot_posture = s.swing_foot_posture →
      ∀ k, k < SUPPORT_FOOT_POS_NUM + SUPPORT_FOOT_ORIENTATION_NUM →
        (switchSupportFoot M t).q (SUPPORT_FOOT_POS_START + k) =
          (switchSupportFoot M s).q (SUPPORT_FOOT_POS_START + k)) := by
  have hbody : ∀ i, i < JOINTS_NUM → (switchSupportFoot M s).q i = s.q i := by
    intro i hi
    rw [switchSupportFoot_q]
    have h1 : i < 24 := hi
    simp [Function.update, show i ≠ 24 by omega, show i ≠ 25 by omega, show i ≠ 26 by omega,
      show i ≠ 27 by omega, show i ≠ 28 by omega, show i ≠ 29 by omega,
      show i ≠ 30 by omega, show i ≠ 31 by omega, show i ≠ 32 by omega,
      show i ≠ 33 by omega, show i ≠ 34 by omega, show i ≠ 35 by omega]
  refine ⟨hbody, rfl, rfl, ?_, ?_, ?_⟩
  · unfold checkJointBounds
    apply checkJointBoundsFrom_congr
    intro j _ hj
    exact ⟨hbody j (by omega), rfl, rfl⟩
  · intro M2
    rw [switchSupportFoot_q, switchSupportFoot_q]
  · intro t ht k hk
    rw [switchSupportFoot_q, switchSupportFoot_q, ht]
    have hk2 : k < 12 := hk
    interval_cases k <;> simp [Function.update, SUPPORT_FOOT_POS_START]

end ScanFrameClaims

/-- C16 at two concrete states that agree on the body joints and differ in the
whole support-foot region: the scan returns the same value. -/
theorem C16_checkJointBounds_ignores_anchor_witness :
    checkJointBounds (sampleState (fun i => if i < 24 then 0 else 1000)) =
      checkJointBounds (sampleState (fun i => if i < 24 then 0 else -7)) :=
  (C16_checkJointBounds_ignores_anchor
    (sampleState (fun i => if i < 24 then 0 else 1000))
    (sampleState (fun i => if i < 24 then 0 else -7))
    (by decide) (by decide) (by decide)).1

/-- C20 at a concrete state: the scan returns 3 before and after the switch. -/
theorem C20_switchSupportFoot_frame_witness :
    checkJointBounds (switchSupportFoot sampleMaple
      (sampleState (fun i => if i = 3 then 9 else 0))) = 3 :=
  ((C20_switchSupportFoot_frame sampleMaple
    (sampleState (fun i => if i = 3 then 9 else 0))).2.2.2.1).trans (by decide)

/-! ## Claims on orthonormality and on the homogeneous builder -/

section RotationLemmas

variable {α : Type} [LinearOrderedCommRing α]

theorem Rx_orthonormal (sin cos : α → α) (t : α) (h : sin t ^ 2 + cos t ^ 2 = 1) :
    Rx sin cos t * (Rx sin cos t).transpose = 1 ∧ (Rx sin cos t).det = 1 := by
  have hT : (Rx sin cos t).transpose = !![1, 0, 0; 0, cos t, sin t; 0, -sin t, cos t] := by
    ext i j
    fin_cases i <;> fin_cases j <;>
      simp [Rx, Matrix.transpose_apply, Matrix.vecHead, Matrix.vecTail]
  constructor
  · rw [hT]
    ext r c
    fin_cases r <;> fin_cases c <;>
      simp [Rx, Matrix.mul_apply, Fin.sum_univ_three, Matrix.vecHead, Matrix.vecTail] <;>
      first | ring1 | linear_combination h
  · rw [Matrix.det_fin_three]
    simp [Rx]
    linear_combination h

theorem Ry_orthonormal (sin cos : α → α) (t : α) (h : sin t ^ 2 + cos t ^ 2 = 1) :
    Ry sin cos t * (Ry sin cos t).transpose = 1 ∧ (Ry sin cos t).det = 1 := by
  have hT : (Ry sin cos t).transpose = !![cos t, 0, -sin t; 0, 1, 0; sin t, 0, cos t] := by
    ext i j
    fin_cases i <;> fin_cases j <;>
      simp [Ry, Matrix.transpose_apply, Matrix.vecHead, Matrix.vecTail]
  constructor
  · rw [hT]
    ext r c
    fin_cases r <;> fin_cases c <;>
      simp [Ry, Matrix.mul_apply, Fin.sum_univ_three, Matrix.vecHead, Matrix.vecTail] <;>
      first | ring1 | linear_combination h
  · rw [Matrix.det_fin_three]
    simp [Ry]
    linear_combination h

theorem Rz_orthonormal (sin cos : α → α) (t : α) (h : sin t ^ 2 + cos t ^ 2 = 1) :
    Rz sin cos t * (Rz sin cos t).transpose = 1 ∧ (Rz sin cos t).det = 1 := by
  have hT : (Rz sin cos t).transpose = !![cos t, sin t, 0; -sin t, cos t, 0; 0, 0, 1] := by
    ext i j
    fin_cases i <;> fin_cases j <;>
      simp [Rz, Matrix.transpose_apply, Matrix.vecHead, Matrix.vecTail]
  constructor
  · rw [hT]
    ext r c
    fin_cases r <;> fin_cases c <;>
      simp [Rz, Matrix.mul_apply, Fin.sum_univ_three, Matrix.vecHead, Matrix.vecTail] <;>
      first | ring1 | linear_combination h
  · rw [Matrix.det_fin_three]
    simp [Rz]
    linear_combination h

/-- The product of two matrices with `A * Aᵀ = 1` and `B * Bᵀ = 1` has the
same property. -/
theorem mul_orthonormal {n : Type} [Fintype n] [DecidableEq n] (A B : Matrix n n α)
    (hA : A * A.transpose = 1) (hB : B * B.transpose = 1) :
    (A * B) * (A * B).transpose = 1 := by
  rw [Matrix.transpose_mul, Matrix.mul_assoc, ← Matrix.mul_assoc B, hB, Matrix.one_mul, hA]

end RotationLemmas

section RotationClaims2

/-- C11: rotation orthonormality. For all real roll, pitch, yaw, the matrix
`R` written by `rpy2R` satisfies `R * R^T = I` exactly, hence every entry of
`R * R^T - I` is below any positive tolerance, and `det R = 1`. -/
theorem C11_rpy2R_orthonormal (roll pitch yaw : ℝ) (R : Nat → ℝ) :
    colMajor3 (rpy2R Real.sin Real.cos roll pitch yaw R) *
        (colMajor3 (rpy2R Real.sin Real.cos roll pitch yaw R)).transpose = 1 ∧
    (∀ ε : ℝ, 0 < ε → ∀ i j : Fin 3,
      |(colMajor3 (rpy2R Real.sin Real.cos roll pitch yaw R) *
        (colMajor3 (rpy2R Real.sin Real.cos roll pitch yaw R)).transpose - 1) i j| < ε) ∧
    (colMajor3 (rpy2R Real.sin Real.cos roll pitch yaw R)).det = 1 := by
  have hx := Rx_orthonormal Real.sin Real.cos roll (Real.sin_sq_add_cos_sq roll)
  have hy := Ry_orthonormal Real.sin Real.cos pitch (Real.sin_sq_add_cos_sq pitch)
  have hz := Rz_orthonormal Real.sin Real.cos yaw (Real.sin_sq_add_cos_sq yaw)
  have hmul : colMajor3 (rpy2R Real.sin Real.cos roll pitch yaw R) *
      (colMajor3 (rpy2R Real.sin Real.cos roll pitch yaw R)).transpose = 1 := by
    rw [rpy2R_eq_product]
    exact mul_orthonormal _ _ (mul_orthonormal _ _ hx.1 hy.1) hz.1
  refine ⟨hmul, ?_, ?_⟩
  · intro ε hε i j
    rw [hmul, sub_self]
    simpa using hε
  · rw [rpy2R_eq_product, Matrix.det_mul, Matrix.det_mul, hx.2, hy.2, hz.2]
    norm_num

/-- C18: the homogeneous and the 3x3 builders embed the same rotation, and
`T2Rot` projects it back. For every 4x4 array `Tc` and all roll, pitch, yaw,
the nine entries `T2Rot` writes from `rpy2R_hom(roll, pitch, yaw, Tc)` are the
nine entries `rpy2R(roll, pitch, yaw)` writes. `T2Rot(T)` is
`Rot[3c + r] = T[4c + r]` for `r, c` in `0..2`, so its nine entries are the
same for two arrays that differ only at indices 3, 7, 11, 12, 13, 14, 15. -/
theorem C18_T2Rot_rpy2R_hom {α : Type} [LinearOrderedCommRing α] (sin cos : α → α)
    (roll pitch yaw : α) (Tc Rot R : Nat → α) :
    (∀ k, k < ORIENTATION_MATRIX_SIZE →
      T2Rot (rpy2R_hom sin cos roll pitch yaw Tc) Rot k = rpy2R sin cos roll pitch yaw R k) ∧
    (∀ (T : Nat → α) (r c : Nat), r < 3 → c < 3 → T2Rot T Rot (3 * c + r) = T (4 * c + r)) ∧
    (∀ T T2 : Nat → α,
      (∀ i, i < POSTURE_MATRIX_SIZE → i ≠ 3 → i ≠ 7 → i ≠ 11 → i ≠ 12 → i ≠ 13 → i ≠ 14 →
        i ≠ 15 → T i = T2 i) →
      ∀ k, k < ORIENTATION_MATRIX_SIZE → T2Rot T Rot k = T2Rot T2 Rot k) := by
  refine ⟨?_, ?_, ?_⟩
  · intro k hk
    have hk2 : k < 9 := hk
    interval_cases k <;> simp [T2Rot, rpy2R_hom, rpy2R, Function.update]
  · intro T r c hr hc
    exact T2Rot_entries T Rot r c hr hc
  · intro T T2 h k hk
    have hk2 : k < 9 := hk
    have h0 := h 0 (by decide) (by decide) (by decide) (by decide) (by decide) (by decide)
      (by decide) (by decide)
    have h1 := h 1 (by decide) (by decide) (by decide) (by decide) (by decide) (by decide)
      (by decide) (by decide)
    have h2 := h 2 (by decide) (by decide) (by decide) (by decide) (by decide) (by decide)
      (by decide) (by decide)
    have h4 := h 4 (by decide) (by decide) (by decide) (by decide) (by decide) (by decide)
      (by decide) (by decide)
    have h5 := h 5 (by decide) (by decide) (by decide) (by decide) (by decide) (by decide)
      (by decide) (by decide)
    have h6 := h 6 (by decide) (by decide) (by decide) (by decide) (by decide) (by decide)
      (by decide) (by decide)
    have h8 := h 8 (by decide) (by decide) (by decide) (by decide) (by decide) (by decide)
      (by decide) (by decide)
    have h9 := h 9 (by decide) (by decide) (by decide) (by decide) (by decide) (by decide)
      (by decide) (by decide)
    have h10 := h 10 (by decide) (by decide) (by decide) (by decide) (by decide) (by decide)
      (by decide) (by decide)
    interval_cases k <;> simp [T2Rot, Function.update, h0, h1, h2, h4, h5, h6, h8, h9, h10]

end RotationClaims2

/-! ## Claims on the offset compositions -/

section OffsetLemmas

variable {α : Type} [LinearOrderedCommRing α]

theorem posture_indices :
    List.range' 0 (4 * 4) = [0, 1, 2, 3, 4, 5, 6, 7, 8, 9, 10, 11, 12, 13, 14, 15] := rfl

theorem rotation_indices : List.range' 0 (3 * 3) = [0, 1, 2, 3, 4, 5, 6, 7, 8] := rfl

theorem range_four : List.range 4 = [0, 1, 2, 3] := rfl

theorem range_three : List.range 3 = [0, 1, 2] := rfl

/-- The 16 entries `PostureOffset` writes into `Td` are the entries of the
Eigen product. -/
theorem PostureOffset_entries (M : maple_functions α) (Tc Td : Nat → α)
    (x y z alpha beta gamma : α) (i : Nat) (hi : i < 16) :
    (PostureOffset M Tc Td x y z alpha beta gamma).2 i =
      eigenProduct 4 Tc (M.Euler2T x y z alpha beta gamma) i := by
  unfold PostureOffset
  rw [posture_indices]
  interval_cases i <;> simp [Function.update]

/-- The 9 entries `RotationOffset` writes into `Rd` are the entries of the
Eigen product. -/
theorem RotationOffset_entries (M : maple_functions α) (Rc Rd : Nat → α)
    (alpha beta gamma : α) (i : Nat) (hi : i < 9) :
    (RotationOffset M Rc Rd alpha beta gamma).2 i =
      eigenProduct 3 Rc (M.Euler2Rot alpha beta gamma) i := by
  unfold RotationOffset
  rw [rotation_indices]
  interval_cases i <;> simp [Function.update]

theorem eigenProduct_four (A B : Nat → α) :
    colMajor4 (eigenProduct 4 A B) = colMajor4 A * colMajor4 B := by
  have h3 : ((3 : Fin 4) : Nat) = 3 := rfl
  ext r c
  fin_cases r <;> fin_cases c <;>
    simp [colMajor4, eigenProduct, range_four, Matrix.mul_apply, Fin.sum_univ_four, add_assoc,
      h3]

theorem eigenProduct_three (A B : Nat → α) :
    colMajor3 (eigenProduct 3 A B) = colMajor3 A * colMajor3 B := by
  ext r c
  fin_cases r <;> fin_cases c <;>
    simp [colMajor3, eigenProduct, range_three, Matrix.mul_apply, Fin.sum_univ_three, add_assoc]

theorem PostureOffset_colMajor4 (M : maple_functions α) (Tc Td : Nat → α)
    (x y z alpha beta gamma : α) :
    colMajor4 (PostureOffset M Tc Td x y z alpha beta gamma).2 =
      colMajor4 Tc * colMajor4 (M.Euler2T x y z alpha beta gamma) := by
  rw [← eigenProduct_four]
  ext r c
  simp only [colMajor4, Matrix.of_apply]
  exact PostureOffset_entries M Tc Td x y z alpha beta gamma _ (by omega)

theorem RotationOffset_colMajor3 (M : maple_functions α) (Rc Rd : Nat → α)
    (alpha beta gamma : α) :
    colMajor3 (RotationOffset M Rc Rd alpha beta gamma).2 =
      colMajor3 Rc * colMajor3 (M.Euler2Rot alpha beta gamma) := by
  rw [← eigenProduct_three]
  ext r c
  simp only [colMajor3, Matrix.of_apply]
  exact RotationOffset_entries M Rc Rd alpha beta gamma _ (by omega)

end OffsetLemmas

section OffsetClaims

/-- C12: `PostureOffset` composes in the local frame by right multiplication.
For every column-major 4x4 `Tc` and every offset, the output `Td` is the
column-major storage of the matrix product `Tc * Euler2T(x, y, z, alpha, beta,
gamma)`, and `Tc` is not modified. -/
theorem C12_PostureOffset_right_product {α : Type} [LinearOrderedCommRing α]
    (M : maple_functions α) (Tc Td : Nat → α) (x y z alpha beta gamma : α) :
    colMajor4 (PostureOffset M Tc Td x y z alpha beta gamma).2 =
      colMajor4 Tc * colMajor4 (M.Euler2T x y z alpha beta gamma) ∧
    (PostureOffset M Tc Td x y z alpha beta gamma).1 = Tc :=
  ⟨PostureOffset_colMajor4 M Tc Td x y z alpha beta gamma, rfl⟩

/-- C14: `RotationOffset` composes on the 3x3 block by right multiplication.
For every column-major 3x3 `Rc` and angles alpha, beta, gamma, the output `Rd`
is the column-major storage of `Rc * Euler2Rot(alpha, beta, gamma)`, and `Rc`
is not modified. -/
theorem C14_RotationOffset_right_product {α : Type} [LinearOrderedCommRing α]
    (M : maple_functions α) (Rc Rd : Nat → α) (alpha beta gamma : α) :
    colMajor3 (RotationOffset M Rc Rd alpha beta gamma).2 =
      colMajor3 Rc * colMajor3 (M.Euler2Rot alpha beta gamma) ∧
    (RotationOffset M Rc Rd alpha beta gamma).1 = Rc :=
  ⟨RotationOffset_colMajor3 M Rc Rd alpha beta gamma, rfl⟩

/-- C15: composition preserves orthonormality. If `Rc * Rc^T = I` and the
offset rotation `E = Euler2Rot(alpha, beta, gamma)` satisfies `E * E^T = I`,
then the matrix `Rd` produced by `RotationOffset` satisfies `Rd * Rd^T = I`,
exactly over the reals. -/
theorem C15_RotationOffset_orthonormal (M : maple_functions ℝ) (Rc Rd : Nat → ℝ)
    (alpha beta gamma : ℝ)
    (hRc : colMajor3 Rc * (colMajor3 Rc).transpose = 1)
    (hE : colMajor3 (M.Euler2Rot alpha beta gamma) *
      (colMajor3 (M.Euler2Rot alpha beta gamma)).transpose = 1) :
    colMajor3 (RotationOffset M Rc Rd alpha beta gamma).2 *
      (colMajor3 (RotationOffset M Rc Rd alpha beta gamma).2).transpose = 1 := by
  rw [RotationOffset_colMajor3]
  exact mul_orthonormal _ _ hRc hE

end OffsetClaims

/-- C12 at a concrete input, `Tc[i] = i * i` and `Euler2T[i] = 1 + i`: entry
`(0, 0)` of `Td` is 800, while the reversed product has 158 there and the
entrywise sum has 1. -/
theorem C12_PostureOffset_right_product_witness :
    colMajor4 (PostureOffset sampleMaple (fun i => i * i) (fun _ => 0) 1 0 0 0 0 0).2 0 0 = 800 ∧
    (colMajor4 (sampleMaple.Euler2T 1 0 0 0 0 0) * colMajor4 (fun i => ((i * i : Nat) : Int))) 0 0
      = 158 ∧
    (colMajor4 (fun i => ((i * i : Nat) : Int)) + colMajor4 (sampleMaple.Euler2T 1 0 0 0 0 0)) 0 0
      = 1 := by
  have h3 : ((3 : Fin 4) : Nat) = 3 := rfl
  rw [(C12_PostureOffset_right_product sampleMaple (fun i => i * i) (fun _ => 0)
    1 0 0 0 0 0).1]
  refine ⟨?_, ?_, ?_⟩ <;>
    simp [colMajor4, sampleMaple, Matrix.mul_apply, Fin.sum_univ_four, h3]

/-- C14 at a concrete input, `Rc[i] = i * i` and `Euler2Rot[i] = 1 + i`: entry
`(0, 0)` of `Rd` is `0 * 1 + 9 * 2 + 36 * 3 = 126`. -/
theorem C14_RotationOffset_right_product_witness :
    colMajor3 (RotationOffset sampleMaple (fun i => i * i) (fun _ => 0) 1 0 0).2 0 0 = 126 := by
  rw [(C14_RotationOffset_right_product sampleMaple (fun i => i * i) (fun _ => 0) 1 0 0).1]
  simp [colMajor3, sampleMaple, Matrix.mul_apply, Fin.sum_univ_three]

/-- The matrix written by `rpy2R` times its transpose is the identity, for any
sine and cosine with `sin^2 + cos^2 = 1`. -/
theorem rpy2R_mul_transpose {α : Type} [LinearOrderedCommRing α] (sin cos : α → α)
    (h : ∀ t, sin t ^ 2 + cos t ^ 2 = 1) (roll pitch yaw : α) (R : Nat → α) :
    colMajor3 (rpy2R sin cos roll pitch yaw R) *
      (colMajor3 (rpy2R sin cos roll pitch yaw R)).transpose = 1 := by
  rw [rpy2R_eq_product]
  exact mul_orthonormal _ _
    (mul_orthonormal _ _ (Rx_orthonormal sin cos roll (h roll)).1
      (Ry_orthonormal sin cos pitch (h pitch)).1)
    (Rz_orthonormal sin cos yaw (h yaw)).1

/-- The quarter turn about z times its transpose is the identity. -/
theorem quarterTurnZ_orthonormal {α : Type} [LinearOrderedCommRing α] :
    colMajor3 (quarterTurnZ : Nat → α) * (colMajor3 (quarterTurnZ : Nat → α)).transpose = 1 := by
  ext r c
  fin_cases r <;> fin_cases c <;>
    simp [colMajor3, quarterTurnZ, Matrix.mul_apply, Matrix.transpose_apply,
      Fin.sum_univ_three]

/-- C15 at a concrete input: the base rotation is the quarter turn about z and
the offset is the rotation `rpy2R` builds for the angles `(1, 2, 3)`. -/
theorem C15_RotationOffset_orthonormal_witness :
    colMajor3 (RotationOffset
        (sampleMapleOf (rpy2R Real.sin Real.cos 1 2 3 (fun _ => 0))) quarterTurnZ
        (fun _ => 0) 1 2 3).2 *
      (colMajor3 (RotationOffset
        (sampleMapleOf (rpy2R Real.sin Real.cos 1 2 3 (fun _ => 0))) quarterTurnZ
        (fun _ => 0) 1 2 3).2).transpose = 1 :=
  C15_RotationOffset_orthonormal
    (sampleMapleOf (rpy2R Real.sin Real.cos 1 2 3 (fun _ => 0))) quarterTurnZ (fun _ => 0)
    1 2 3 quarterTurnZ_orthonormal
    (rpy2R_mul_transpose Real.sin Real.cos Real.sin_sq_add_cos_sq 1 2 3 (fun _ => 0))

section IdentityOffset

theorem Rx_zero {α : Type} [LinearOrderedCommRing α] (sin cos : α → α) (hs : sin 0 = 0) (hc : cos 0 = 1) : Rx sin cos 0 = 1 := by
  ext r c
  fin_cases r <;> fin_cases c <;> simp [Rx, hs, hc, Matrix.vecHead, Matrix.vecTail]

theorem Ry_zero {α : Type} [LinearOrderedCommRing α] (sin cos : α → α) (hs : sin 0 = 0) (hc : cos 0 = 1) : Ry sin cos 0 = 1 := by
  ext r c
  fin_cases r <;> fin_cases c <;> simp [Ry, hs, hc, Matrix.vecHead, Matrix.vecTail]

theorem Rz_zero {α : Type} [LinearOrderedCommRing α] (sin cos : α → α) (hs : sin 0 = 0) (hc : cos 0 = 1) : Rz sin cos 0 = 1 := by
  ext r c
  fin_cases r <;> fin_cases c <;> simp [Rz, hs, hc, Matrix.vecHead, Matrix.vecTail]

theorem Euler2T_matrix_zero {α : Type} [LinearOrderedCommRing α] (sin cos : α → α) (hs : sin 0 = 0) (hc : cos 0 = 1) :
    Euler2T_matrix sin cos 0 0 0 0 0 0 = 1 := by
  unfold Euler2T_matrix
  rw [Rx_zero sin cos hs hc, Ry_zero sin cos hs hc, Rz_zero sin cos hs hc]
  ext r c
  fin_cases r <;> fin_cases c <;> simp [Matrix.vecHead, Matrix.vecTail]

/-- The homogeneous matrix the spec describes for the zero offset is the 4x4
identity, for any sine and cosine with `sin 0 = 0` and `cos 0 = 1`. -/
theorem Euler2T_spec_zero {α : Type} [LinearOrderedCommRing α] (sin cos : α → α)
    (hs : sin 0 = 0) (hc : cos 0 = 1) (i : Nat) (hi : i < 16) :
    Euler2T_spec sin cos 0 0 0 0 0 0 i = if i = 0 ∨ i = 5 ∨ i = 10 ∨ i = 15 then 1 else 0 := by
  unfold Euler2T_spec
  rw [Euler2T_matrix_zero sin cos hs hc]
  interval_cases i <;> simp [Matrix.one_apply]

/-- C13: identity offset. With `Euler2T` the homogeneous builder of the spec,
for every 4x4 pose `Tc` the call `PostureOffset(Tc, Td, 0, 0, 0, 0, 0, 0)`
yields `Td` equal to `Tc` in all 16 entries, the homogeneous matrix of the
zero offset being the 4x4 identity. -/
theorem C13_PostureOffset_zero_offset (M : maple_functions ℝ) (Tc Td : Nat → ℝ) :
    colMajor4 (Euler2T_spec Real.sin Real.cos 0 0 0 0 0 0) = 1 ∧
    ∀ i, i < POSTURE_MATRIX_SIZE →
      (PostureOffset (withSpecEuler2T Real.sin Real.cos M) Tc Td 0 0 0 0 0 0).2 i = Tc i := by
  have h3 : ((3 : Fin 4) : Nat) = 3 := rfl
  have hz := Euler2T_spec_zero Real.sin Real.cos Real.sin_zero Real.cos_zero
  constructor
  · ext r c
    fin_cases r <;> fin_cases c <;> simp [colMajor4, hz, h3]
  · intro i hi
    have hi2 : i < 16 := hi
    rw [PostureOffset_entries _ _ _ _ _ _ _ _ _ i hi2]
    interval_cases i <;> simp [eigenProduct, range_four, withSpecEuler2T, hz]

end IdentityOffset

/-! ## Claim on the constructor -/

section ConstructionClaims

/-- C19: the constructor's default standing posture satisfies the
constructor's own limit table. For each of the 24 body joints the pair
installed by `setBounds` has `lower < upper` and the angle installed by
`initJointAngles` lies within `[lower, upper]`, so `checkJointBounds` on a
freshly constructed model returns -1. -/
theorem C19_constructor_within_bounds {α : Type} [LinearOrderedField α] (s0 : nao_igm α) :
    (∀ i, i < JOINTS_NUM →
      (nao_igm_constructor s0).q_lower_bound i < (nao_igm_constructor s0).q_upper_bound i ∧
      (nao_igm_constructor s0).q_lower_bound i ≤ (nao_igm_constructor s0).q i ∧
      (nao_igm_constructor s0).q i ≤ (nao_igm_constructor s0).q_upper_bound i) ∧
    checkJointBounds (nao_igm_constructor s0) = -1 := by
  have htable : ∀ i, i < JOINTS_NUM →
      (nao_igm_constructor s0).q_lower_bound i < (nao_igm_constructor s0).q_upper_bound i ∧
      (nao_igm_constructor s0).q_lower_bound i ≤ (nao_igm_constructor s0).q i ∧
      (nao_igm_constructor s0).q i ≤ (nao_igm_constructor s0).q_upper_bound i := by
    intro i hi
    have hi2 : i < 24 := hi
    interval_cases i <;>
      simp [nao_igm_constructor, initJointAngles, setBounds, Function.update,
      L_HIP_YAW_PITCH, L_HIP_ROLL, L_HIP_PITCH, L_KNEE_PITCH,
      L_ANKLE_PITCH, L_ANKLE_ROLL, R_HIP_YAW_PITCH, R_HIP_ROLL,
      R_HIP_PITCH, R_KNEE_PITCH, R_ANKLE_PITCH, R_ANKLE_ROLL,
      L_SHOULDER_PITCH, L_SHOULDER_ROLL, L_ELBOW_YAW, L_ELBOW_ROLL,
      L_WRIST_YAW, R_SHOULDER_PITCH, R_SHOULDER_ROLL, R_ELBOW_YAW,
      R_ELBOW_ROLL, R_WRIST_YAW, HEAD_PITCH, HEAD_YAW] <;>
      norm_num
  refine ⟨htable, ?_⟩
  unfold checkJointBounds
  rw [checkJointBoundsFrom_eq_neg_one]
  intro j _ hj
  exact (htable j (by omega)).2

end ConstructionClaims

end NaoIgm
